import Mathlib

/-!
# Customer CRUD server (`backend/server.js`)

A shallow embedding of the four Express route handlers of `backend/server.js`
and of the MongoDB collection they talk to, followed by the properties of the
handlers that the specification states.

* JavaScript values are `JVal`; an object is an ordered list of properties.
* The route handlers are pure functions from the process state (`World`), the
  per-request environment (`Ambient`) and the request (`Req`) to an `Outcome`
  holding the responses written, the collection afterwards, the request body
  afterwards (handlers mutate it) and the trace of calls made.  `Req` is a
  request whose body `express.json()` parsed to an object; `HttpReq` is any
  request, its `req.body` possibly `undefined`, and the Update and Delete
  handlers are given on it as well.
* The `mongodb` package is not part of the repository.  What the handlers
  need from it is the `Driver` parameter (the `ObjectId` constructor and the
  shape of the `insertOne` result) and the collection operations
  `find`, `insertOne`, `updateOne`, `deleteOne` below, which follow the
  documented behaviour of the store on a single collection.
-/

namespace Exp8

/-! ## Values -/

/-- A BSON object id, represented by its canonical hexadecimal rendering. -/
structure ObjectId where
  hex : String
  deriving DecidableEq, Repr

/-- A JavaScript error value, as thrown and caught in the handlers. -/
structure JsError where
  name : String
  message : String
  deriving DecidableEq, Repr

deriving instance DecidableEq for Except

/-- JavaScript values that occur in request bodies, documents and responses.
A number is the rational it denotes; a date is its time value. -/
inductive JVal where
  | undefined
  | null
  | bool (b : Bool)
  | num (n : Rat)
  | str (s : String)
  | date (t : Nat)
  | oid (o : ObjectId)
  | arr (xs : List JVal)
  | obj (kvs : List (String × JVal))

/-- An object: its own properties in insertion order. -/
abbrev Doc := List (String × JVal)

mutual
/-- Structural equality test on values. -/
def JVal.beq : JVal → JVal → Bool
  | .undefined, .undefined => true
  | .null, .null => true
  | .bool a, .bool b => a == b
  | .num a, .num b => a == b
  | .str a, .str b => a == b
  | .date a, .date b => a == b
  | .oid a, .oid b => a == b
  | .arr xs, .arr ys => JVal.beqList xs ys
  | .obj xs, .obj ys => JVal.beqProps xs ys
  | _, _ => false
/-- Structural equality test on arrays of values. -/
def JVal.beqList : List JVal → List JVal → Bool
  | [], [] => true
  | x :: xs, y :: ys => JVal.beq x y && JVal.beqList xs ys
  | _, _ => false
/-- Structural equality test on property lists. -/
def JVal.beqProps : List (String × JVal) → List (String × JVal) → Bool
  | [], [] => true
  | (k, x) :: xs, (l, y) :: ys => k == l && JVal.beq x y && JVal.beqProps xs ys
  | _, _ => false
end

mutual
theorem JVal.beq_iff : ∀ (a b : JVal), JVal.beq a b = true ↔ a = b
  | .arr xs, b => by
    cases b <;> simp [JVal.beq]
    exact JVal.beqList_iff xs _
  | .obj xs, b => by
    cases b <;> simp [JVal.beq]
    exact JVal.beqProps_iff xs _
  | .undefined, b => by cases b <;> simp [JVal.beq]
  | .null, b => by cases b <;> simp [JVal.beq]
  | .bool _, b => by cases b <;> simp [JVal.beq]
  | .num _, b => by cases b <;> simp [JVal.beq]
  | .str _, b => by cases b <;> simp [JVal.beq]
  | .date _, b => by cases b <;> simp [JVal.beq]
  | .oid _, b => by cases b <;> simp [JVal.beq]
theorem JVal.beqList_iff : ∀ (xs ys : List JVal), JVal.beqList xs ys = true ↔ xs = ys
  | [], ys => by cases ys <;> simp [JVal.beqList]
  | x :: xs, ys => by
    cases ys with
    | nil => simp [JVal.beqList]
    | cons y ys => simp [JVal.beqList, JVal.beq_iff x y, JVal.beqList_iff xs ys]
theorem JVal.beqProps_iff :
    ∀ (xs ys : List (String × JVal)), JVal.beqProps xs ys = true ↔ xs = ys
  | [], ys => by cases ys <;> simp [JVal.beqProps]
  | (k, x) :: xs, ys => by
    cases ys with
    | nil => simp [JVal.beqProps]
    | cons y ys =>
      obtain ⟨l, y⟩ := y
      simp [JVal.beqProps, JVal.beq_iff x y, JVal.beqProps_iff xs ys, and_assoc]
end

instance : DecidableEq JVal := fun a b =>
  if h : JVal.beq a b = true then isTrue ((JVal.beq_iff a b).1 h)
  else isFalse (fun e => h ((JVal.beq_iff a b).2 e))

/-- Property read `o.k`: the value of property `k`, `undefined` when absent. -/
def getProp : Doc → String → JVal
  | [], _ => .undefined
  | (k', v) :: rest, k => if k' = k then v else getProp rest k

/-- Whether `o` has an own property `k`. -/
def hasProp : Doc → String → Bool
  | [], _ => false
  | (k', _) :: rest, k => if k' = k then true else hasProp rest k

/-- Replace the value of property `k` where it occurs. -/
def replaceProp : Doc → String → JVal → Doc
  | [], _, _ => []
  | (k', v') :: rest, k, v =>
    (k', if k' = k then v else v') :: replaceProp rest k v

/-- Property write `o.k = v`: an existing property keeps its position, a new
one is added last. -/
def setProp (o : Doc) (k : String) (v : JVal) : Doc :=
  if hasProp o k then replaceProp o k v else o ++ [(k, v)]

/-- The properties `JSON.stringify` emits for an object: a property whose
value is `undefined` is skipped. -/
def jsonFields (o : Doc) : Doc :=
  o.filter (fun p => decide (p.2 ≠ JVal.undefined))

/-- The body `{ message: text }`. -/
def message (text : String) : JVal :=
  .obj [("message", .str text)]

/-! ## The document store -/

/-- What the handlers use of the `mongodb` package besides the collection
operations.  `newObjectId s` is `new ObjectId(s)` on a string: the id, or the
error the constructor throws.  `insertResultHasOps` tells whether the value
`insertOne` resolves to carries the `ops` array of inserted documents (the 3.x
result) or only `acknowledged` and `insertedId` (4.0 and later). -/
structure Driver where
  newObjectId : String → Except JsError ObjectId
  insertResultHasOps : Bool

/-- The value `insertOne` resolves to. -/
structure InsertOneResult where
  insertedId : JVal
  ops : Option (List JVal)

/-- What a request finds around it: the clock, the id the driver would
generate for a document without one, and the error with which the store call
of this request rejects, if it does. -/
structure Ambient where
  now : Nat
  freshId : ObjectId
  fault : Option JsError

/-- The stored `_id` of a document. -/
def docId (d : Doc) : JVal := getProp d "_id"

/-- The filter `{ _id: o }`. -/
def matchesId (o : ObjectId) (d : Doc) : Bool :=
  decide (docId d = JVal.oid o)

/-- `find({}).toArray()`: every document, in the store's order. -/
def find (docs : List Doc) (fault : Option JsError) : Except JsError (List Doc) :=
  match fault with
  | some e => .error e
  | none => .ok docs

/-- The driver gives a document whose `_id` is `null` or `undefined` a
generated id before sending it, by assignment to the caller's object. -/
def assignId (doc : Doc) (fresh : ObjectId) : Doc :=
  match getProp doc "_id" with
  | .undefined => setProp doc "_id" (.oid fresh)
  | .null => setProp doc "_id" (.oid fresh)
  | _ => doc

/-- The error of the unique index on `_id`. -/
def duplicateKey : JsError :=
  ⟨"MongoServerError", "E11000 duplicate key error"⟩

/-- `insertOne(doc)` on the collection: the result and the collection
afterwards, or the error it rejects with.  The document is given its `_id`,
refused when that `_id` is taken, and otherwise added after the others. -/
def insertOne (drv : Driver) (docs : List Doc) (doc : Doc) (amb : Ambient) :
    Except JsError (InsertOneResult × List Doc) :=
  let stored := assignId doc amb.freshId
  match amb.fault with
  | some e => .error e
  | none =>
    if docs.any (fun d => decide (docId d = docId stored)) then .error duplicateKey
    else
      .ok (⟨docId stored, if drv.insertResultHasOps then some [.obj stored] else none⟩,
        docs ++ [stored])

/-- How a value of an update document is stored: with the driver's default
serialisation `undefined` is written as `null`. -/
def bsonValue : JVal → JVal
  | .undefined => .null
  | v => v

/-- The effect of `{ $set: fields }` on one document. -/
def applySet (d : Doc) (fields : Doc) : Doc :=
  fields.foldl (fun acc p => setProp acc p.1 (bsonValue p.2)) d

/-- Apply `$set` to the first document matching `{ _id: o }`; the count of
matched documents and the collection afterwards. -/
def updateFirst (o : ObjectId) (fields : Doc) : List Doc → Nat × List Doc
  | [] => (0, [])
  | d :: ds =>
    if matchesId o d then (1, applySet d fields :: ds)
    else ((updateFirst o fields ds).1, d :: (updateFirst o fields ds).2)

/-- `updateOne({ _id: o }, { $set: fields })`: `matchedCount` and the
collection afterwards, or the error it rejects with. -/
def updateOne (docs : List Doc) (o : ObjectId) (fields : Doc) (fault : Option JsError) :
    Except JsError (Nat × List Doc) :=
  match fault with
  | some e => .error e
  | none => .ok (updateFirst o fields docs)

/-- Remove the first document matching `{ _id: o }`; the count of deleted
documents and the collection afterwards. -/
def deleteFirst (o : ObjectId) : List Doc → Nat × List Doc
  | [] => (0, [])
  | d :: ds =>
    if matchesId o d then (1, ds)
    else ((deleteFirst o ds).1, d :: (deleteFirst o ds).2)

/-- `deleteOne({ _id: o })`: `deletedCount` and the collection afterwards, or
the error it rejects with. -/
def deleteOne (docs : List Doc) (o : ObjectId) (fault : Option JsError) :
    Except JsError (Nat × List Doc) :=
  match fault with
  | some e => .error e
  | none => .ok (deleteFirst o docs)

/-! ## The server -/

/-- The collection handle `db.collection("customers")`. -/
structure Collection where
  db : String
  name : String
  deriving DecidableEq, Repr

/-- Process state: the module variable `customersCollection` (`none` until
`connectToDatabase` has assigned it) and the contents of the collection. -/
structure World where
  customersCollection : Option Collection
  docs : List Doc

/-- `connectToDatabase()`: on success the handle is assigned; on failure the
process exits (`none`). -/
def connectToDatabase (w : World) (connected : Bool) : Option World :=
  if connected then some { w with customersCollection := some ⟨"crm-database", "customers"⟩ }
  else none

/-- A request: the `:id` path parameter and the JSON object body as parsed by
`express.json()`. -/
structure Req where
  id : String
  body : Doc

/-- A response written with `res.status(s).json(b)` or `res.status(s).send(b)`:
`body` is the value `b` handed over, which is sent as its JSON text (see
`jsonFields` for what that text holds of an object). -/
structure Response where
  status : Nat
  body : JVal
  deriving DecidableEq

/-- Calls a handler makes, in order. -/
inductive Event where
  | newObjectId (s : String)
  | find
  | insertOne (doc : Doc)
  | updateOne (o : ObjectId) (set : Doc)
  | deleteOne (o : ObjectId)
  | consoleError (label : String) (e : JsError)
  deriving DecidableEq

/-- What running a handler leaves behind. -/
structure Outcome where
  sent : List Response
  docs : List Doc
  body : Doc
  trace : List Event

/-- The `TypeError` of reading index `0` of `undefined`. -/
def typeErrorOps : JsError :=
  ⟨"TypeError", "Cannot read properties of undefined (reading '0')"⟩

/-- `GET /api/customers` (server.js 50-61). -/
def get_api_customers (w : World) (amb : Ambient) (req : Req) : Outcome :=
  match w.customersCollection with
  | none => ⟨[⟨500, message "Database not initialized"⟩], w.docs, req.body, []⟩
  | some _ =>
    match find w.docs amb.fault with
    | .ok customers =>
      ⟨[⟨200, .arr (customers.map JVal.obj)⟩], w.docs, req.body, [.find]⟩
    | .error e =>
      ⟨[⟨500, message "Failed to fetch customers"⟩], w.docs, req.body,
        [.find, .consoleError "Error fetching customers:" e]⟩

/-- `POST /api/customers` (server.js 64-79). -/
def post_api_customers (drv : Driver) (w : World) (amb : Ambient) (req : Req) : Outcome :=
  match w.customersCollection with
  | none => ⟨[⟨500, message "Database not initialized"⟩], w.docs, req.body, []⟩
  | some _ =>
    let newCustomer := setProp req.body "createdAt" (.date amb.now)
    match insertOne drv w.docs newCustomer amb with
    | .error e =>
      ⟨[⟨500, message "Failed to create customer"⟩], w.docs,
        assignId newCustomer amb.freshId,
        [.insertOne newCustomer, .consoleError "Error creating customer:" e]⟩
    | .ok (result, docs') =>
      match result.ops with
      | none =>
        ⟨[⟨500, message "Failed to create customer"⟩], docs',
          assignId newCustomer amb.freshId,
          [.insertOne newCustomer, .consoleError "Error creating customer:" typeErrorOps]⟩
      | some ops =>
        ⟨[⟨201, ops.headD .undefined⟩], docs',
          assignId newCustomer amb.freshId, [.insertOne newCustomer]⟩

/-- The update document `customerToUpdate` of the Update handler (server.js
91-95): the `name`, `email` and `phone` of the request body. -/
def customerToUpdate (updateData : Doc) : Doc :=
  [("name", getProp updateData "name"),
   ("email", getProp updateData "email"),
   ("phone", getProp updateData "phone")]

/-- `PUT /api/customers/:id` (server.js 82-111). -/
def put_api_customers_id (drv : Driver) (w : World) (amb : Ambient) (req : Req) : Outcome :=
  match w.customersCollection with
  | none => ⟨[⟨500, message "Database not initialized"⟩], w.docs, req.body, []⟩
  | some _ =>
    let id := req.id
    let updateData := req.body
    let customerToUpdate := customerToUpdate updateData
    match drv.newObjectId id with
    | .error e =>
      ⟨[⟨500, message "Failed to update customer"⟩], w.docs, req.body,
        [.newObjectId id, .consoleError "Error updating customer:" e]⟩
    | .ok o =>
      match updateOne w.docs o customerToUpdate amb.fault with
      | .error e =>
        ⟨[⟨500, message "Failed to update customer"⟩], w.docs, req.body,
          [.newObjectId id, .updateOne o customerToUpdate,
           .consoleError "Error updating customer:" e]⟩
      | .ok (matchedCount, docs') =>
        if matchedCount = 0 then
          ⟨[⟨404, message "Customer not found"⟩], docs', req.body,
            [.newObjectId id, .updateOne o customerToUpdate]⟩
        else
          ⟨[⟨200, .obj (("_id", .str id) :: customerToUpdate)⟩], docs', req.body,
            [.newObjectId id, .updateOne o customerToUpdate]⟩

/-- `DELETE /api/customers/:id` (server.js 114-131). -/
def delete_api_customers_id (drv : Driver) (w : World) (amb : Ambient) (req : Req) :
    Outcome :=
  match w.customersCollection with
  | none => ⟨[⟨500, message "Database not initialized"⟩], w.docs, req.body, []⟩
  | some _ =>
    let id := req.id
    match drv.newObjectId id with
    | .error e =>
      ⟨[⟨500, message "Failed to delete customer"⟩], w.docs, req.body,
        [.newObjectId id, .consoleError "Error deleting customer:" e]⟩
    | .ok o =>
      match deleteOne w.docs o amb.fault with
      | .error e =>
        ⟨[⟨500, message "Failed to delete customer"⟩], w.docs, req.body,
          [.newObjectId id, .deleteOne o, .consoleError "Error deleting customer:" e]⟩
      | .ok (deletedCount, docs') =>
        if deletedCount = 0 then
          ⟨[⟨404, message "Customer not found"⟩], docs', req.body,
            [.newObjectId id, .deleteOne o]⟩
        else
          ⟨[⟨200, message "Customer deleted successfully"⟩], docs', req.body,
            [.newObjectId id, .deleteOne o]⟩

/-! ## Requests with or without a body -/

/-- A request as a handler receives it: the `:id` path parameter and
`req.body`, which is `undefined` (`none`) when `express.json()` parsed no body
and otherwise the parsed object (an array being an object whose properties are
its indices). -/
structure HttpReq where
  id : String
  body : Option Doc

/-- What a handler run shows outside the request: the responses written, the
collection afterwards and the trace of calls made. -/
structure Reply where
  sent : List Response
  docs : List Doc
  trace : List Event

/-- The outward part of an outcome. -/
def Outcome.reply (out : Outcome) : Reply :=
  ⟨out.sent, out.docs, out.trace⟩

/-- The `TypeError` of reading `name` of `undefined`. -/
def typeErrorName : JsError :=
  ⟨"TypeError", "Cannot read properties of undefined (reading 'name')"⟩

/-- `PUT /api/customers/:id` (server.js 82-111) on any request.  The update
document is built from `updateData.name`, `updateData.email` and
`updateData.phone` (lines 91-95) before `new ObjectId(id)` is evaluated (line
98): when `req.body` is `undefined` the first read throws and the `catch`
block answers. -/
def put_api_customers_id_anyBody (drv : Driver) (w : World) (amb : Ambient)
    (req : HttpReq) : Reply :=
  match w.customersCollection with
  | none => ⟨[⟨500, message "Database not initialized"⟩], w.docs, []⟩
  | some _ =>
    let id := req.id
    match req.body with
    | none =>
      ⟨[⟨500, message "Failed to update customer"⟩], w.docs,
        [.consoleError "Error updating customer:" typeErrorName]⟩
    | some updateData =>
      let customerToUpdate := customerToUpdate updateData
      match drv.newObjectId id with
      | .error e =>
        ⟨[⟨500, message "Failed to update customer"⟩], w.docs,
          [.newObjectId id, .consoleError "Error updating customer:" e]⟩
      | .ok o =>
        match updateOne w.docs o customerToUpdate amb.fault with
        | .error e =>
          ⟨[⟨500, message "Failed to update customer"⟩], w.docs,
            [.newObjectId id, .updateOne o customerToUpdate,
             .consoleError "Error updating customer:" e]⟩
        | .ok (matchedCount, docs') =>
          if matchedCount = 0 then
            ⟨[⟨404, message "Customer not found"⟩], docs',
              [.newObjectId id, .updateOne o customerToUpdate]⟩
          else
            ⟨[⟨200, .obj (("_id", .str id) :: customerToUpdate)⟩], docs',
              [.newObjectId id, .updateOne o customerToUpdate]⟩

/-- `DELETE /api/customers/:id` (server.js 114-131) on any request: the
handler never reads `req.body`. -/
def delete_api_customers_id_anyBody (drv : Driver) (w : World) (amb : Ambient)
    (req : HttpReq) : Reply :=
  match w.customersCollection with
  | none => ⟨[⟨500, message "Database not initialized"⟩], w.docs, []⟩
  | some _ =>
    let id := req.id
    match drv.newObjectId id with
    | .error e =>
      ⟨[⟨500, message "Failed to delete customer"⟩], w.docs,
        [.newObjectId id, .consoleError "Error deleting customer:" e]⟩
    | .ok o =>
      match deleteOne w.docs o amb.fault with
      | .error e =>
        ⟨[⟨500, message "Failed to delete customer"⟩], w.docs,
          [.newObjectId id, .deleteOne o, .consoleError "Error deleting customer:" e]⟩
      | .ok (deletedCount, docs') =>
        if deletedCount = 0 then
          ⟨[⟨404, message "Customer not found"⟩], docs', [.newObjectId id, .deleteOne o]⟩
        else
          ⟨[⟨200, message "Customer deleted successfully"⟩], docs',
            [.newObjectId id, .deleteOne o]⟩

/-! ## A concrete driver, for evaluation -/

/-- Hexadecimal digit, either case. -/
def isHexDigit (c : Char) : Bool :=
  decide (c ∈ "0123456789abcdefABCDEF".data)

/-- The error `new ObjectId(s)` throws on a string it does not accept. -/
def invalidObjectId : JsError :=
  ⟨"BSONError", "input must be a 24 character hex string, 12 byte Uint8Array, or an integer"⟩

/-- The string case of the `ObjectId` constructor of current drivers: a string
of 24 hexadecimal digits is accepted, read case-insensitively; any other
string makes the constructor throw. -/
def hexObjectId (s : String) : Except JsError ObjectId :=
  if s.data.length = 24 ∧ s.data.all isHexDigit then
    .ok ⟨String.mk (s.data.map Char.toLower)⟩
  else .error invalidObjectId

/-- A driver of the current line: the constructor above, and an `insertOne`
that resolves without `ops`. -/
def currentDriver : Driver := ⟨hexObjectId, false⟩

/-- The same driver but for `insertOne`, which resolves with `ops`, the result
shape of the 3.x line. -/
def driverWithOps : Driver := ⟨hexObjectId, true⟩

/-- The state once `connectToDatabase` has run, with the given documents. -/
def connectedWorld (docs : List Doc) : World :=
  ⟨some ⟨"crm-database", "customers"⟩, docs⟩

/-- Whether the handler reached its `catch` block (it logs there). -/
def caught (out : Outcome) : Bool :=
  out.trace.any (fun ev => match ev with
    | .consoleError _ _ => true
    | _ => false)

/-- The `_id` index of the store: no two documents share an `_id`. -/
def uniqueIds (docs : List Doc) : Prop :=
  (docs.map docId).Nodup

instance (docs : List Doc) : Decidable (uniqueIds docs) :=
  inferInstanceAs (Decidable (docs.map docId).Nodup)

/-! ## Sample data -/

/-- The customer of the specification's scenario. -/
def ada : Doc :=
  [("name", .str "Ada"), ("email", .str "a@x.com"), ("phone", .str "555")]

/-- An object id. -/
def oidA : ObjectId := ⟨"507f1f77bcf86cd799439011"⟩

/-- Another object id. -/
def oidB : ObjectId := ⟨"507f1f77bcf86cd799439012"⟩

/-- The scenario's customer as stored. -/
def adaStored : Doc :=
  ada ++ [("createdAt", .date 1000), ("_id", .oid oidA)]

/-- A second stored customer. -/
def bobStored : Doc :=
  [("name", .str "Bob"), ("email", .str "b@x.com"), ("phone", .str "777"),
   ("createdAt", .date 900), ("_id", .oid oidB), ("vip", .bool true)]

/-- A request environment in which the store answers. -/
def calm : Ambient := ⟨1000, oidA, none⟩

/-- A request environment in which the store call rejects. -/
def stormy : Ambient := ⟨1000, oidA, some ⟨"MongoNetworkError", "connection closed"⟩⟩

/-! ## Properties of objects -/

theorem getProp_replaceProp_same (o : Doc) (k : String) (v : JVal)
    (h : hasProp o k = true) : getProp (replaceProp o k v) k = v := by
  induction o with
  | nil => simp [hasProp] at h
  | cons p rest ih =>
    obtain ⟨k', v'⟩ := p
    by_cases hk : k' = k
    · simp [replaceProp, getProp, hk]
    · simp [hasProp, hk] at h
      simp [replaceProp, getProp, hk, ih h]

theorem getProp_replaceProp_other (o : Doc) (k k2 : String) (v : JVal)
    (h : k2 ≠ k) : getProp (replaceProp o k v) k2 = getProp o k2 := by
  induction o with
  | nil => simp [replaceProp]
  | cons p rest ih =>
    obtain ⟨k', v'⟩ := p
    by_cases hk : k' = k
    · subst hk
      have : ¬ k' = k2 := fun e => h e.symm
      simp [replaceProp, getProp, this, ih]
    · simp [replaceProp, getProp, hk, ih]

theorem hasProp_replaceProp (o : Doc) (k k2 : String) (v : JVal) :
    hasProp (replaceProp o k v) k2 = hasProp o k2 := by
  induction o with
  | nil => simp [replaceProp]
  | cons p rest ih =>
    obtain ⟨k', v'⟩ := p
    by_cases hk : k' = k <;> simp [replaceProp, hasProp, hk, ih]

theorem getProp_append_absent (o : Doc) (k : String) (v : JVal)
    (h : hasProp o k = false) : getProp (o ++ [(k, v)]) k = v := by
  induction o with
  | nil => simp [getProp]
  | cons p rest ih =>
    obtain ⟨k', v'⟩ := p
    by_cases hk : k' = k
    · simp [hasProp, hk] at h
    · simp [hasProp, hk] at h
      simp [getProp, hk, ih h]

theorem getProp_append_other (o : Doc) (k k2 : String) (v : JVal)
    (h : k2 ≠ k) : getProp (o ++ [(k, v)]) k2 = getProp o k2 := by
  induction o with
  | nil =>
    have : ¬ k = k2 := fun e => h e.symm
    simp [getProp, this]
  | cons p rest ih =>
    obtain ⟨k', v'⟩ := p
    by_cases hk : k' = k2 <;> simp [getProp, hk, ih]

theorem hasProp_append (o : Doc) (k k2 : String) (v : JVal) :
    hasProp (o ++ [(k, v)]) k2 = (hasProp o k2 || decide (k = k2)) := by
  induction o with
  | nil => by_cases hk : k = k2 <;> simp [hasProp, hk]
  | cons p rest ih =>
    obtain ⟨k', v'⟩ := p
    by_cases hk : k' = k2 <;> simp [hasProp, hk, ih]

/-- Reading back a property just written gives the written value. -/
theorem getProp_setProp_same (o : Doc) (k : String) (v : JVal) :
    getProp (setProp o k v) k = v := by
  unfold setProp
  by_cases h : hasProp o k = true
  · simp [h, getProp_replaceProp_same o k v h]
  · have h' : hasProp o k = false := by simpa using h
    simp [h', getProp_append_absent o k v h']

/-- Writing a property leaves the value of every other property as it was. -/
theorem getProp_setProp_other (o : Doc) (k k2 : String) (v : JVal) (h : k2 ≠ k) :
    getProp (setProp o k v) k2 = getProp o k2 := by
  unfold setProp
  by_cases hk : hasProp o k = true
  · simp [hk, getProp_replaceProp_other o k k2 v h]
  · have h' : hasProp o k = false := by simpa using hk
    simp [h', getProp_append_other o k k2 v h]

/-- Writing a property neither adds nor removes any other property. -/
theorem hasProp_setProp_other (o : Doc) (k k2 : String) (v : JVal) (h : k2 ≠ k) :
    hasProp (setProp o k v) k2 = hasProp o k2 := by
  unfold setProp
  by_cases hk : hasProp o k = true
  · simp [hk, hasProp_replaceProp]
  · have h' : hasProp o k = false := by simpa using hk
    have : ¬ k = k2 := fun e => h e.symm
    simp [h', hasProp_append, this]

theorem hasProp_setProp_same (o : Doc) (k : String) (v : JVal) :
    hasProp (setProp o k v) k = true := by
  unfold setProp
  by_cases hk : hasProp o k = true
  · simp [hk, hasProp_replaceProp]
  · have h' : hasProp o k = false := by simpa using hk
    simp [h', hasProp_append]

/-- Giving a document its `_id` leaves every other property as it was. -/
theorem getProp_assignId_other (doc : Doc) (fresh : ObjectId) (k : String)
    (h : k ≠ "_id") : getProp (assignId doc fresh) k = getProp doc k := by
  unfold assignId
  split <;> simp [getProp_setProp_other _ _ _ _ h]

theorem hasProp_assignId_other (doc : Doc) (fresh : ObjectId) (k : String)
    (h : k ≠ "_id") : hasProp (assignId doc fresh) k = hasProp doc k := by
  unfold assignId
  split <;> simp [hasProp_setProp_other _ _ _ _ h]

/-! ## The branches of the handlers -/

theorem insertOne_ok_docs {drv : Driver} {docs : List Doc} {doc : Doc} {amb : Ambient}
    {result : InsertOneResult} {docs' : List Doc}
    (h : insertOne drv docs doc amb = .ok (result, docs')) :
    docs' = docs ++ [assignId doc amb.freshId]
      ∧ result.ops
        = (if drv.insertResultHasOps then some [.obj (assignId doc amb.freshId)] else none)
      ∧ amb.fault = none
      ∧ (∀ d ∈ docs, docId d ≠ docId (assignId doc amb.freshId)) := by
  unfold insertOne at h
  simp only [] at h
  split at h
  · cases h
  · rename_i hf
    split at h
    · cases h
    · rename_i hany
      cases h
      refine ⟨rfl, rfl, hf, ?_⟩
      intro d hd hid
      apply hany
      simp only [List.any_eq_true, decide_eq_true_eq]
      exact ⟨d, hd, hid⟩

theorem insertOne_succeeds (drv : Driver) (docs : List Doc) (doc : Doc) (amb : Ambient)
    (hf : amb.fault = none) (hfresh : ∀ d ∈ docs, docId d ≠ docId (assignId doc amb.freshId)) :
    insertOne drv docs doc amb
      = .ok (⟨docId (assignId doc amb.freshId),
            if drv.insertResultHasOps then some [.obj (assignId doc amb.freshId)] else none⟩,
          docs ++ [assignId doc amb.freshId]) := by
  unfold insertOne
  simp only [hf]
  have hany : (docs.any fun d => decide (docId d = docId (assignId doc amb.freshId)))
      = false := by
    rw [List.any_eq_false]
    intro d hd
    simpa using hfresh d hd
  simp [hany]

theorem post_branch_error {drv : Driver} {w : World} {amb : Ambient} {req : Req}
    {c : Collection} {e : JsError} (hc : w.customersCollection = some c)
    (hins : insertOne drv w.docs (setProp req.body "createdAt" (.date amb.now)) amb
      = .error e) :
    post_api_customers drv w amb req
      = ⟨[⟨500, message "Failed to create customer"⟩], w.docs,
          assignId (setProp req.body "createdAt" (.date amb.now)) amb.freshId,
          [.insertOne (setProp req.body "createdAt" (.date amb.now)),
           .consoleError "Error creating customer:" e]⟩ := by
  simp [post_api_customers, hc, hins]

theorem post_branch_no_ops {drv : Driver} {w : World} {amb : Ambient} {req : Req}
    {c : Collection} {result : InsertOneResult} {docs' : List Doc}
    (hc : w.customersCollection = some c)
    (hins : insertOne drv w.docs (setProp req.body "createdAt" (.date amb.now)) amb
      = .ok (result, docs'))
    (hops : result.ops = none) :
    post_api_customers drv w amb req
      = ⟨[⟨500, message "Failed to create customer"⟩], docs',
          assignId (setProp req.body "createdAt" (.date amb.now)) amb.freshId,
          [.insertOne (setProp req.body "createdAt" (.date amb.now)),
           .consoleError "Error creating customer:" typeErrorOps]⟩ := by
  simp [post_api_customers, hc, hins, hops]

theorem post_branch_ops {drv : Driver} {w : World} {amb : Ambient} {req : Req}
    {c : Collection} {result : InsertOneResult} {docs' : List Doc} {ops : List JVal}
    (hc : w.customersCollection = some c)
    (hins : insertOne drv w.docs (setProp req.body "createdAt" (.date amb.now)) amb
      = .ok (result, docs'))
    (hops : result.ops = some ops) :
    post_api_customers drv w amb req
      = ⟨[⟨201, ops.headD .undefined⟩], docs',
          assignId (setProp req.body "createdAt" (.date amb.now)) amb.freshId,
          [.insertOne (setProp req.body "createdAt" (.date amb.now))]⟩ := by
  simp [post_api_customers, hc, hins, hops]

theorem put_branch_bad_id {drv : Driver} {w : World} {amb : Ambient} {req : Req}
    {c : Collection} {e : JsError} (hc : w.customersCollection = some c)
    (hid : drv.newObjectId req.id = .error e) :
    put_api_customers_id drv w amb req
      = ⟨[⟨500, message "Failed to update customer"⟩], w.docs, req.body,
          [.newObjectId req.id, .consoleError "Error updating customer:" e]⟩ := by
  simp [put_api_customers_id, hc, hid]

theorem put_branch_fault {drv : Driver} {w : World} {amb : Ambient} {req : Req}
    {c : Collection} {o : ObjectId} {e : JsError} (hc : w.customersCollection = some c)
    (hid : drv.newObjectId req.id = .ok o) (hf : amb.fault = some e) :
    put_api_customers_id drv w amb req
      = ⟨[⟨500, message "Failed to update customer"⟩], w.docs, req.body,
          [.newObjectId req.id, .updateOne o (customerToUpdate req.body),
           .consoleError "Error updating customer:" e]⟩ := by
  simp [put_api_customers_id, hc, hid, hf, updateOne, customerToUpdate]

theorem put_branch_unmatched {drv : Driver} {w : World} {amb : Ambient} {req : Req}
    {c : Collection} {o : ObjectId} (hc : w.customersCollection = some c)
    (hid : drv.newObjectId req.id = .ok o) (hf : amb.fault = none)
    (hm : (updateFirst o (customerToUpdate req.body) w.docs).1 = 0) :
    put_api_customers_id drv w amb req
      = ⟨[⟨404, message "Customer not found"⟩],
          (updateFirst o (customerToUpdate req.body) w.docs).2, req.body,
          [.newObjectId req.id, .updateOne o (customerToUpdate req.body)]⟩ := by
  unfold customerToUpdate at hm
  simp [put_api_customers_id, hc, hid, hf, updateOne, customerToUpdate, hm]

theorem put_branch_matched {drv : Driver} {w : World} {amb : Ambient} {req : Req}
    {c : Collection} {o : ObjectId} (hc : w.customersCollection = some c)
    (hid : drv.newObjectId req.id = .ok o) (hf : amb.fault = none)
    (hm : (updateFirst o (customerToUpdate req.body) w.docs).1 ≠ 0) :
    put_api_customers_id drv w amb req
      = ⟨[⟨200, .obj (("_id", .str req.id) :: customerToUpdate req.body)⟩],
          (updateFirst o (customerToUpdate req.body) w.docs).2, req.body,
          [.newObjectId req.id, .updateOne o (customerToUpdate req.body)]⟩ := by
  unfold customerToUpdate at hm
  simp [put_api_customers_id, hc, hid, hf, updateOne, customerToUpdate, hm]

theorem delete_branch_bad_id {drv : Driver} {w : World} {amb : Ambient} {req : Req}
    {c : Collection} {e : JsError} (hc : w.customersCollection = some c)
    (hid : drv.newObjectId req.id = .error e) :
    delete_api_customers_id drv w amb req
      = ⟨[⟨500, message "Failed to delete customer"⟩], w.docs, req.body,
          [.newObjectId req.id, .consoleError "Error deleting customer:" e]⟩ := by
  simp [delete_api_customers_id, hc, hid]

theorem delete_branch_fault {drv : Driver} {w : World} {amb : Ambient} {req : Req}
    {c : Collection} {o : ObjectId} {e : JsError} (hc : w.customersCollection = some c)
    (hid : drv.newObjectId req.id = .ok o) (hf : amb.fault = some e) :
    delete_api_customers_id drv w amb req
      = ⟨[⟨500, message "Failed to delete customer"⟩], w.docs, req.body,
          [.newObjectId req.id, .deleteOne o,
           .consoleError "Error deleting customer:" e]⟩ := by
  simp [delete_api_customers_id, hc, hid, hf, deleteOne]

theorem delete_branch_unmatched {drv : Driver} {w : World} {amb : Ambient} {req : Req}
    {c : Collection} {o : ObjectId} (hc : w.customersCollection = some c)
    (hid : drv.newObjectId req.id = .ok o) (hf : amb.fault = none)
    (hm : (deleteFirst o w.docs).1 = 0) :
    delete_api_customers_id drv w amb req
      = ⟨[⟨404, message "Customer not found"⟩], (deleteFirst o w.docs).2, req.body,
          [.newObjectId req.id, .deleteOne o]⟩ := by
  simp [delete_api_customers_id, hc, hid, hf, deleteOne, hm]

theorem delete_branch_matched {drv : Driver} {w : World} {amb : Ambient} {req : Req}
    {c : Collection} {o : ObjectId} (hc : w.customersCollection = some c)
    (hid : drv.newObjectId req.id = .ok o) (hf : amb.fault = none)
    (hm : (deleteFirst o w.docs).1 ≠ 0) :
    delete_api_customers_id drv w amb req
      = ⟨[⟨200, message "Customer deleted successfully"⟩], (deleteFirst o w.docs).2,
          req.body, [.newObjectId req.id, .deleteOne o]⟩ := by
  simp [delete_api_customers_id, hc, hid, hf, deleteOne, hm]

theorem get_branch_fault {w : World} {amb : Ambient} {req : Req}
    {c : Collection} {e : JsError} (hc : w.customersCollection = some c)
    (hf : amb.fault = some e) :
    get_api_customers w amb req
      = ⟨[⟨500, message "Failed to fetch customers"⟩], w.docs, req.body,
          [.find, .consoleError "Error fetching customers:" e]⟩ := by
  simp [get_api_customers, hc, hf, find]

theorem get_branch_ok {w : World} {amb : Ambient} {req : Req}
    {c : Collection} (hc : w.customersCollection = some c) (hf : amb.fault = none) :
    get_api_customers w amb req
      = ⟨[⟨200, .arr (w.docs.map JVal.obj)⟩], w.docs, req.body, [.find]⟩ := by
  simp [get_api_customers, hc, hf, find]

/-- On a request whose body is an object, the Update handler on any request
is the Update handler on object bodies. -/
theorem put_anyBody_of_object (drv : Driver) (w : World) (amb : Ambient) (id : String)
    (updateData : Doc) :
    put_api_customers_id_anyBody drv w amb ⟨id, some updateData⟩
      = (put_api_customers_id drv w amb ⟨id, updateData⟩).reply := by
  unfold put_api_customers_id_anyBody put_api_customers_id Outcome.reply
  cases w.customersCollection with
  | none => rfl
  | some c =>
    simp only []
    cases drv.newObjectId id with
    | error e => rfl
    | ok o =>
      simp only []
      cases updateOne w.docs o (customerToUpdate updateData) amb.fault with
      | error e => rfl
      | ok r =>
        obtain ⟨matchedCount, docs'⟩ := r
        simp only []
        by_cases hm : matchedCount = 0 <;> simp [hm]

/-- The Delete handler on any request is the Delete handler on object bodies,
whatever the body. -/
theorem delete_anyBody_eq (drv : Driver) (w : World) (amb : Ambient) (id : String)
    (body : Option Doc) (other : Doc) :
    delete_api_customers_id_anyBody drv w amb ⟨id, body⟩
      = (delete_api_customers_id drv w amb ⟨id, other⟩).reply := by
  unfold delete_api_customers_id_anyBody delete_api_customers_id Outcome.reply
  cases w.customersCollection with
  | none => rfl
  | some c =>
    simp only []
    cases drv.newObjectId id with
    | error e => rfl
    | ok o =>
      simp only []
      cases deleteOne w.docs o amb.fault with
      | error e => rfl
      | ok r =>
        obtain ⟨deletedCount, docs'⟩ := r
        simp only []
        by_cases hm : deletedCount = 0 <;> simp [hm]

theorem put_anyBody_undefined {drv : Driver} {w : World} {amb : Ambient} {id : String}
    {c : Collection} (hc : w.customersCollection = some c) :
    put_api_customers_id_anyBody drv w amb ⟨id, none⟩
      = ⟨[⟨500, message "Failed to update customer"⟩], w.docs,
          [.consoleError "Error updating customer:" typeErrorName]⟩ := by
  simp [put_api_customers_id_anyBody, hc]

/-! ## The handlers -/

/-- C7. With the collection handle initialised and a fetch that succeeds, the
List handler answers 200 with the array of exactly the documents the store
returned, in the store's order, nothing filtered, added or reordered; these
are all the documents of the collection; the handler leaves the collection as
it was; and on an empty collection the answer is 200 with the empty array. -/
theorem list_returns_all (w : World) (amb : Ambient) (req : Req) (customers : List Doc)
    (hready : w.customersCollection ≠ none)
    (hfetch : find w.docs amb.fault = .ok customers) :
    (get_api_customers w amb req).sent = [⟨200, .arr (customers.map JVal.obj)⟩]
      ∧ customers = w.docs
      ∧ (get_api_customers w amb req).docs = w.docs
      ∧ (w.docs = [] → (get_api_customers w amb req).sent = [⟨200, .arr []⟩]) := by
  have hc : customers = w.docs := by
    unfold find at hfetch
    split at hfetch
    · cases hfetch
    · cases hfetch; rfl
  have hs : (get_api_customers w amb req).sent = [⟨200, .arr (customers.map JVal.obj)⟩] := by
    unfold get_api_customers
    cases hcc : w.customersCollection with
    | none => exact absurd hcc hready
    | some c => simp [hfetch]
  refine ⟨hs, hc, ?_, ?_⟩
  · unfold get_api_customers
    cases hcc : w.customersCollection with
    | none => rfl
    | some c => simp only []; split <;> rfl
  · intro he
    rw [hs, hc, he]
    rfl

theorem list_returns_all_witness :
    (get_api_customers (connectedWorld [adaStored, bobStored]) calm ⟨"", []⟩).sent
        = [⟨200, .arr [.obj adaStored, .obj bobStored]⟩]
      ∧ (get_api_customers (connectedWorld [adaStored, bobStored]) calm ⟨"", []⟩).docs
        = [adaStored, bobStored] :=
  have h := list_returns_all (connectedWorld [adaStored, bobStored]) calm ⟨"", []⟩
    [adaStored, bobStored] (by decide) rfl
  ⟨h.1, h.2.2.1⟩

/-- C8. When the collection handle is uninitialised, each of the four handlers
answers 500 with the body "Database not initialized", whatever the path
parameter and the body of the request; it makes no call at all (no store
operation, no id construction, no logging), leaves the collection as it was
and leaves the request body as it was. -/
theorem uninitialised_gate (drv : Driver) (w : World) (amb : Ambient) (req : Req)
    (h : w.customersCollection = none) :
    get_api_customers w amb req
        = ⟨[⟨500, message "Database not initialized"⟩], w.docs, req.body, []⟩
      ∧ post_api_customers drv w amb req
        = ⟨[⟨500, message "Database not initialized"⟩], w.docs, req.body, []⟩
      ∧ put_api_customers_id drv w amb req
        = ⟨[⟨500, message "Database not initialized"⟩], w.docs, req.body, []⟩
      ∧ delete_api_customers_id drv w amb req
        = ⟨[⟨500, message "Database not initialized"⟩], w.docs, req.body, []⟩ := by
  simp [get_api_customers, post_api_customers, put_api_customers_id,
    delete_api_customers_id, h]

theorem uninitialised_gate_witness :
    post_api_customers currentDriver ⟨none, [bobStored]⟩ calm ⟨"zzz", ada⟩
        = ⟨[⟨500, message "Database not initialized"⟩], [bobStored], ada, []⟩
      ∧ put_api_customers_id currentDriver ⟨none, [bobStored]⟩ calm ⟨"zzz", ada⟩
        = ⟨[⟨500, message "Database not initialized"⟩], [bobStored], ada, []⟩ :=
  have h := uninitialised_gate currentDriver ⟨none, [bobStored]⟩ calm ⟨"zzz", ada⟩ rfl
  ⟨h.2.1, h.2.2.1⟩

/-- C10. With the collection handle initialised, the Create handler makes
exactly one insert call, and the document it passes has `createdAt` equal to
the server's clock at handling, also when the request body carried a
`createdAt` of its own, and every other property (an `_id` or `id` sent by the
client included) present or absent and valued exactly as in the request body.
The document the store then holds, if the insert succeeds, still has that
`createdAt`. -/
theorem create_stamps_createdAt (drv : Driver) (w : World) (amb : Ambient) (req : Req)
    (hready : w.customersCollection ≠ none) :
    ∃ doc rest,
      (post_api_customers drv w amb req).trace = Event.insertOne doc :: rest
        ∧ (∀ d, Event.insertOne d ∉ rest)
        ∧ getProp doc "createdAt" = .date amb.now
        ∧ hasProp doc "createdAt" = true
        ∧ (∀ k, k ≠ "createdAt" →
            getProp doc k = getProp req.body k ∧ hasProp doc k = hasProp req.body k)
        ∧ ((post_api_customers drv w amb req).docs = w.docs
            ∨ (post_api_customers drv w amb req).docs = w.docs ++ [assignId doc amb.freshId])
        ∧ getProp (assignId doc amb.freshId) "createdAt" = .date amb.now := by
  refine ⟨setProp req.body "createdAt" (.date amb.now), ?_⟩
  have hget := getProp_setProp_same req.body "createdAt" (.date amb.now)
  have hrest : ∀ k, k ≠ "createdAt" →
      getProp (setProp req.body "createdAt" (.date amb.now)) k = getProp req.body k
        ∧ hasProp (setProp req.body "createdAt" (.date amb.now)) k = hasProp req.body k :=
    fun k hk => ⟨getProp_setProp_other _ _ _ _ hk, hasProp_setProp_other _ _ _ _ hk⟩
  have hstored : getProp (assignId (setProp req.body "createdAt" (.date amb.now))
      amb.freshId) "createdAt" = .date amb.now := by
    rw [getProp_assignId_other _ _ _ (by decide)]
    exact hget
  cases hcc : w.customersCollection with
  | none => exact absurd hcc hready
  | some c =>
    cases hins : insertOne drv w.docs (setProp req.body "createdAt" (.date amb.now)) amb with
    | error e =>
      rw [post_branch_error hcc hins]
      exact ⟨_, rfl, by simp, hget, hasProp_setProp_same _ _ _, hrest, Or.inl rfl, hstored⟩
    | ok r =>
      obtain ⟨result, docs'⟩ := r
      have hdocs := (insertOne_ok_docs hins).1
      cases hops : result.ops with
      | none =>
        rw [post_branch_no_ops hcc hins hops]
        exact ⟨_, rfl, by simp, hget, hasProp_setProp_same _ _ _, hrest, Or.inr hdocs, hstored⟩
      | some ops =>
        rw [post_branch_ops hcc hins hops]
        exact ⟨_, rfl, by simp, hget, hasProp_setProp_same _ _ _, hrest, Or.inr hdocs, hstored⟩

theorem create_stamps_createdAt_witness :
    ∃ doc rest,
      (post_api_customers currentDriver (connectedWorld [bobStored]) calm
          ⟨"", [("createdAt", .str "1999"), ("_id", .str "mine")]⟩).trace
          = Event.insertOne doc :: rest
        ∧ getProp doc "createdAt" = .date 1000
        ∧ getProp doc "_id" = .str "mine" := by
  obtain ⟨doc, rest, h1, _, h3, _, h5, _⟩ :=
    create_stamps_createdAt currentDriver (connectedWorld [bobStored]) calm
      ⟨"", [("createdAt", .str "1999"), ("_id", .str "mine")]⟩ (by decide)
  exact ⟨doc, rest, h1, h3, (h5 "_id" (by decide)).1⟩

/-- C2 (what the code does instead). With a driver whose `insertOne` resolves
without `ops`, an initialised handle and an insert that succeeds, the Create
handler stores the document and then answers 500 "Failed to create customer",
not 201 with the document: reading index 0 of the missing `ops` throws, and
the `catch` block answers. -/
theorem create_without_ops_answers_500 (drv : Driver) (w : World) (amb : Ambient)
    (req : Req) (hready : w.customersCollection ≠ none)
    (hops : drv.insertResultHasOps = false)
    (result : InsertOneResult) (docs' : List Doc)
    (hins : insertOne drv w.docs (setProp req.body "createdAt" (.date amb.now)) amb
      = .ok (result, docs')) :
    (post_api_customers drv w amb req).sent = [⟨500, message "Failed to create customer"⟩]
      ∧ (post_api_customers drv w amb req).docs
        = w.docs ++ [assignId (setProp req.body "createdAt" (.date amb.now)) amb.freshId]
      ∧ (post_api_customers drv w amb req).trace
        = [.insertOne (setProp req.body "createdAt" (.date amb.now)),
           .consoleError "Error creating customer:" typeErrorOps] := by
  cases hcc : w.customersCollection with
  | none => exact absurd hcc hready
  | some c =>
    obtain ⟨hdocs, hres, _, _⟩ := insertOne_ok_docs hins
    rw [hops] at hres
    rw [post_branch_no_ops hcc hins (by simpa using hres)]
    exact ⟨rfl, hdocs, rfl⟩

theorem create_without_ops_answers_500_witness :
    (post_api_customers currentDriver (connectedWorld []) calm ⟨"", []⟩).sent
        = [⟨500, message "Failed to create customer"⟩]
      ∧ (post_api_customers currentDriver (connectedWorld []) calm ⟨"", []⟩).docs
        = [[("createdAt", .date 1000), ("_id", .oid oidA)]]
      ∧ (post_api_customers currentDriver (connectedWorld []) calm ⟨"", []⟩).trace
        = [.insertOne [("createdAt", .date 1000)],
           .consoleError "Error creating customer:" typeErrorOps] :=
  create_without_ops_answers_500 currentDriver (connectedWorld []) calm ⟨"", []⟩
    (by decide) rfl ⟨.oid oidA, none⟩ [[("createdAt", .date 1000), ("_id", .oid oidA)]] rfl

/-- With a driver whose `insertOne` resolves with `ops`, an initialised handle
and an insert that succeeds, the Create handler answers 201 with the inserted
document: the request body's properties, `createdAt`, and the `_id`. -/
theorem create_with_ops_answers_201 (drv : Driver) (w : World) (amb : Ambient) (req : Req)
    (hready : w.customersCollection ≠ none) (hops : drv.insertResultHasOps = true)
    (result : InsertOneResult) (docs' : List Doc)
    (hins : insertOne drv w.docs (setProp req.body "createdAt" (.date amb.now)) amb
      = .ok (result, docs')) :
    (post_api_customers drv w amb req).sent
        = [⟨201, .obj (assignId (setProp req.body "createdAt" (.date amb.now)) amb.freshId)⟩]
      ∧ (post_api_customers drv w amb req).docs
        = w.docs ++ [assignId (setProp req.body "createdAt" (.date amb.now)) amb.freshId] := by
  cases hcc : w.customersCollection with
  | none => exact absurd hcc hready
  | some c =>
    obtain ⟨hdocs, hres, _, _⟩ := insertOne_ok_docs hins
    rw [hops] at hres
    rw [post_branch_ops hcc hins (by simpa using hres)]
    exact ⟨rfl, hdocs⟩

theorem get_fixed_500 (w : World) (amb : Ambient) (req : Req) (c : Collection)
    (hc : w.customersCollection = some c) :
    (get_api_customers w amb req).sent.length = 1
      ∧ (caught (get_api_customers w amb req) = true →
          (get_api_customers w amb req).sent = [⟨500, message "Failed to fetch customers"⟩])
      ∧ (∀ e, amb.fault = some e → caught (get_api_customers w amb req) = true) := by
  cases hf : amb.fault with
  | none => rw [get_branch_ok hc hf]; simp [caught]
  | some e => rw [get_branch_fault hc hf]; simp [caught]

theorem post_fixed_500 (drv : Driver) (w : World) (amb : Ambient) (req : Req)
    (c : Collection) (hc : w.customersCollection = some c) :
    (post_api_customers drv w amb req).sent.length = 1
      ∧ (caught (post_api_customers drv w amb req) = true →
          (post_api_customers drv w amb req).sent
            = [⟨500, message "Failed to create customer"⟩])
      ∧ (∀ e, amb.fault = some e → caught (post_api_customers drv w amb req) = true)
      ∧ (∀ e, insertOne drv w.docs (setProp req.body "createdAt" (.date amb.now)) amb
            = .error e → caught (post_api_customers drv w amb req) = true)
      ∧ (∀ result docs',
          insertOne drv w.docs (setProp req.body "createdAt" (.date amb.now)) amb
            = .ok (result, docs') →
          result.ops = none → caught (post_api_customers drv w amb req) = true) := by
  cases hins : insertOne drv w.docs (setProp req.body "createdAt" (.date amb.now)) amb with
  | error e => rw [post_branch_error hc hins]; simp [caught]
  | ok r =>
    obtain ⟨result, docs'⟩ := r
    have hf := (insertOne_ok_docs hins).2.2.1
    cases hops : result.ops with
    | none => rw [post_branch_no_ops hc hins hops]; simp [caught]
    | some ops => rw [post_branch_ops hc hins hops]; simp [caught, hf, hops]

theorem put_fixed_500 (drv : Driver) (w : World) (amb : Ambient) (req : Req)
    (c : Collection) (hc : w.customersCollection = some c) :
    (put_api_customers_id drv w amb req).sent.length = 1
      ∧ (caught (put_api_customers_id drv w amb req) = true →
          (put_api_customers_id drv w amb req).sent
            = [⟨500, message "Failed to update customer"⟩])
      ∧ (∀ e, drv.newObjectId req.id = .error e →
          caught (put_api_customers_id drv w amb req) = true)
      ∧ (∀ e, amb.fault = some e → caught (put_api_customers_id drv w amb req) = true) := by
  cases hid : drv.newObjectId req.id with
  | error e => rw [put_branch_bad_id hc hid]; simp [caught]
  | ok o =>
    cases hf : amb.fault with
    | some e => rw [put_branch_fault hc hid hf]; simp [caught]
    | none =>
      by_cases hm : (updateFirst o (customerToUpdate req.body) w.docs).1 = 0
      · rw [put_branch_unmatched hc hid hf hm]; simp [caught]
      · rw [put_branch_matched hc hid hf hm]; simp [caught]

theorem delete_fixed_500 (drv : Driver) (w : World) (amb : Ambient) (req : Req)
    (c : Collection) (hc : w.customersCollection = some c) :
    (delete_api_customers_id drv w amb req).sent.length = 1
      ∧ (caught (delete_api_customers_id drv w amb req) = true →
          (delete_api_customers_id drv w amb req).sent
            = [⟨500, message "Failed to delete customer"⟩])
      ∧ (∀ e, drv.newObjectId req.id = .error e →
          caught (delete_api_customers_id drv w amb req) = true)
      ∧ (∀ e, amb.fault = some e →
          caught (delete_api_customers_id drv w amb req) = true) := by
  cases hid : drv.newObjectId req.id with
  | error e => rw [delete_branch_bad_id hc hid]; simp [caught]
  | ok o =>
    cases hf : amb.fault with
    | some e => rw [delete_branch_fault hc hid hf]; simp [caught]
    | none =>
      by_cases hm : (deleteFirst o w.docs).1 = 0
      · rw [delete_branch_unmatched hc hid hf hm]; simp [caught]
      · rw [delete_branch_matched hc hid hf hm]; simp [caught]

/-- C9. With the collection handle initialised, each of the four handlers
sends exactly one response, and whenever its body raises an error (the store
call rejects, in any handler; the identifier constructor rejects the path id,
in Update and Delete; the insert result has no `ops`, in Create) the handler
reaches its `catch` block and the response is 500 with the handler's own
fixed message, whatever the error value is.  Hence two runs of the same
handler that both fail, on any two states, requests and errors, send identical
responses. -/
theorem errors_answer_fixed_500 (drv : Driver) (w : World) (amb : Ambient) (req : Req)
    (drv2 : Driver) (w2 : World) (amb2 : Ambient) (req2 : Req)
    (hready : w.customersCollection ≠ none) (hready2 : w2.customersCollection ≠ none) :
    ((get_api_customers w amb req).sent.length = 1
        ∧ (caught (get_api_customers w amb req) = true →
            (get_api_customers w amb req).sent
              = [⟨500, message "Failed to fetch customers"⟩])
        ∧ (∀ e, amb.fault = some e → caught (get_api_customers w amb req) = true)
        ∧ (caught (get_api_customers w amb req) = true →
            caught (get_api_customers w2 amb2 req2) = true →
            (get_api_customers w amb req).sent = (get_api_customers w2 amb2 req2).sent))
      ∧ ((post_api_customers drv w amb req).sent.length = 1
        ∧ (caught (post_api_customers drv w amb req) = true →
            (post_api_customers drv w amb req).sent
              = [⟨500, message "Failed to create customer"⟩])
        ∧ (∀ e, amb.fault = some e → caught (post_api_customers drv w amb req) = true)
        ∧ (∀ e, insertOne drv w.docs (setProp req.body "createdAt" (.date amb.now)) amb
              = .error e → caught (post_api_customers drv w amb req) = true)
        ∧ (∀ result docs',
            insertOne drv w.docs (setProp req.body "createdAt" (.date amb.now)) amb
              = .ok (result, docs') →
            result.ops = none → caught (post_api_customers drv w amb req) = true)
        ∧ (caught (post_api_customers drv w amb req) = true →
            caught (post_api_customers drv2 w2 amb2 req2) = true →
            (post_api_customers drv w amb req).sent
              = (post_api_customers drv2 w2 amb2 req2).sent))
      ∧ ((put_api_customers_id drv w amb req).sent.length = 1
        ∧ (caught (put_api_customers_id drv w amb req) = true →
            (put_api_customers_id drv w amb req).sent
              = [⟨500, message "Failed to update customer"⟩])
        ∧ (∀ e, drv.newObjectId req.id = .error e →
            caught (put_api_customers_id drv w amb req) = true)
        ∧ (∀ e, amb.fault = some e → caught (put_api_customers_id drv w amb req) = true)
        ∧ (caught (put_api_customers_id drv w amb req) = true →
            caught (put_api_customers_id drv2 w2 amb2 req2) = true →
            (put_api_customers_id drv w amb req).sent
              = (put_api_customers_id drv2 w2 amb2 req2).sent))
      ∧ ((delete_api_customers_id drv w amb req).sent.length = 1
        ∧ (caught (delete_api_customers_id drv w amb req) = true →
            (delete_api_customers_id drv w amb req).sent
              = [⟨500, message "Failed to delete customer"⟩])
        ∧ (∀ e, drv.newObjectId req.id = .error e →
            caught (delete_api_customers_id drv w amb req) = true)
        ∧ (∀ e, amb.fault = some e →
            caught (delete_api_customers_id drv w amb req) = true)
        ∧ (caught (delete_api_customers_id drv w amb req) = true →
            caught (delete_api_customers_id drv2 w2 amb2 req2) = true →
            (delete_api_customers_id drv w amb req).sent
              = (delete_api_customers_id drv2 w2 amb2 req2).sent)) := by
  cases hc : w.customersCollection with
  | none => exact absurd hc hready
  | some c =>
    cases hc2 : w2.customersCollection with
    | none => exact absurd hc2 hready2
    | some c2 =>
      obtain ⟨g1, g2, g3⟩ := get_fixed_500 w amb req c hc
      obtain ⟨_, g2', _⟩ := get_fixed_500 w2 amb2 req2 c2 hc2
      obtain ⟨p1, p2, p3, p4, p5⟩ := post_fixed_500 drv w amb req c hc
      obtain ⟨_, p2', _⟩ := post_fixed_500 drv2 w2 amb2 req2 c2 hc2
      obtain ⟨u1, u2, u3, u4⟩ := put_fixed_500 drv w amb req c hc
      obtain ⟨_, u2', _⟩ := put_fixed_500 drv2 w2 amb2 req2 c2 hc2
      obtain ⟨d1, d2, d3, d4⟩ := delete_fixed_500 drv w amb req c hc
      obtain ⟨_, d2', _⟩ := delete_fixed_500 drv2 w2 amb2 req2 c2 hc2
      exact ⟨⟨g1, g2, g3, fun a b => (g2 a).trans (g2' b).symm⟩,
        ⟨p1, p2, p3, p4, p5, fun a b => (p2 a).trans (p2' b).symm⟩,
        ⟨u1, u2, u3, u4, fun a b => (u2 a).trans (u2' b).symm⟩,
        ⟨d1, d2, d3, d4, fun a b => (d2 a).trans (d2' b).symm⟩⟩

theorem errors_answer_fixed_500_witness :
    (put_api_customers_id currentDriver (connectedWorld [adaStored]) calm ⟨"zzz", ada⟩).sent
        = [⟨500, message "Failed to update customer"⟩]
      ∧ (delete_api_customers_id currentDriver (connectedWorld [adaStored]) stormy
          ⟨"507f1f77bcf86cd799439011", []⟩).sent
        = [⟨500, message "Failed to delete customer"⟩]
      ∧ (put_api_customers_id currentDriver (connectedWorld [adaStored]) calm ⟨"zzz", ada⟩).sent
        = (put_api_customers_id driverWithOps (connectedWorld []) stormy
            ⟨"507f1f77bcf86cd799439011", []⟩).sent :=
  have h := errors_answer_fixed_500
    currentDriver (connectedWorld [adaStored]) calm ⟨"zzz", ada⟩
    driverWithOps (connectedWorld []) stormy ⟨"507f1f77bcf86cd799439011", []⟩
    (by decide) (by decide)
  have h2 := errors_answer_fixed_500
    currentDriver (connectedWorld [adaStored]) stormy ⟨"507f1f77bcf86cd799439011", []⟩
    driverWithOps (connectedWorld []) stormy ⟨"507f1f77bcf86cd799439011", []⟩
    (by decide) (by decide)
  ⟨h.2.2.1.2.1 (by decide), h2.2.2.2.2.1 (by decide),
    h.2.2.1.2.2.2.2 (by decide) (by decide)⟩

theorem updateFirst_unmatched (o : ObjectId) (fields : Doc) (docs : List Doc)
    (h : ∀ d ∈ docs, docId d ≠ .oid o) : updateFirst o fields docs = (0, docs) := by
  induction docs with
  | nil => rfl
  | cons d ds ih =>
    have hd : matchesId o d = false := by
      simpa [matchesId] using h d (List.mem_cons_self d ds)
    have ih' := ih (fun x hx => h x (List.mem_cons_of_mem d hx))
    simp [updateFirst, hd, ih']

theorem deleteFirst_unmatched (o : ObjectId) (docs : List Doc)
    (h : ∀ d ∈ docs, docId d ≠ .oid o) : deleteFirst o docs = (0, docs) := by
  induction docs with
  | nil => rfl
  | cons d ds ih =>
    have hd : matchesId o d = false := by
      simpa [matchesId] using h d (List.mem_cons_self d ds)
    have ih' := ih (fun x hx => h x (List.mem_cons_of_mem d hx))
    simp [deleteFirst, hd, ih']

/-- C1 (counterexample). On an initialised collection holding one customer,
with a store that answers: the path id "zzz" identifies no document (the
identifier constructor rejects it), and the Update and the Delete handler
answer 500 on it, not 404; and a well-formed path id that no document has is
answered 500, not 404, by the Update handler when the request has no body. -/
theorem unknown_id_answers_500 :
    (∀ o, currentDriver.newObjectId "zzz" ≠ .ok o)
      ∧ calm.fault = none
      ∧ (put_api_customers_id currentDriver (connectedWorld [adaStored]) calm
          ⟨"zzz", ada⟩).sent = [⟨500, message "Failed to update customer"⟩]
      ∧ (delete_api_customers_id currentDriver (connectedWorld [adaStored]) calm
          ⟨"zzz", []⟩).sent = [⟨500, message "Failed to delete customer"⟩]
      ∧ (put_api_customers_id_anyBody currentDriver (connectedWorld [adaStored]) calm
          ⟨"zzz", some ada⟩).sent = [⟨500, message "Failed to update customer"⟩]
      ∧ (delete_api_customers_id_anyBody currentDriver (connectedWorld [adaStored]) calm
          ⟨"zzz", none⟩).sent = [⟨500, message "Failed to delete customer"⟩]
      ∧ currentDriver.newObjectId "507f1f77bcf86cd799439012" = .ok oidB
      ∧ (∀ d ∈ (connectedWorld [adaStored]).docs, docId d ≠ .oid oidB)
      ∧ (put_api_customers_id_anyBody currentDriver (connectedWorld [adaStored]) calm
          ⟨"507f1f77bcf86cd799439012", none⟩).sent
        = [⟨500, message "Failed to update customer"⟩] := by
  refine ⟨?_, rfl, by decide, by decide, by decide, by decide, by decide, by decide,
    by decide⟩
  intro o h
  have : currentDriver.newObjectId "zzz" = .error invalidObjectId := by decide
  rw [this] at h
  cases h

/-- C1 (amended). With the collection handle initialised and a store call that
does not reject, for every request, with or without a body.  Delete, and
Update when the request body is an object: if the identifier constructor
accepts the path id and no document of the collection has the resulting
`_id`, the answer is 404 "Customer not found" (so neither 500 nor 200) and
the collection is left as it was; if the identifier constructor rejects the
path id, the answer is 500 with the handler's fixed failure message and the
collection is left as it was.  Update when `req.body` is `undefined`: the
answer is 500 "Failed to update customer" whatever the path id, the
collection is left as it was, and neither the identifier constructor nor the
store is called. -/
theorem unknown_id_answers_404 (drv : Driver) (w : World) (amb : Ambient) (req : HttpReq)
    (hready : w.customersCollection ≠ none) (hstore : amb.fault = none) :
    (∀ o, drv.newObjectId req.id = .ok o → (∀ d ∈ w.docs, docId d ≠ .oid o) →
        (req.body ≠ none →
          (put_api_customers_id_anyBody drv w amb req).sent
              = [⟨404, message "Customer not found"⟩]
            ∧ (put_api_customers_id_anyBody drv w amb req).docs = w.docs)
          ∧ (delete_api_customers_id_anyBody drv w amb req).sent
            = [⟨404, message "Customer not found"⟩]
          ∧ (delete_api_customers_id_anyBody drv w amb req).docs = w.docs)
      ∧ (∀ e, drv.newObjectId req.id = .error e →
        (req.body ≠ none →
          (put_api_customers_id_anyBody drv w amb req).sent
              = [⟨500, message "Failed to update customer"⟩]
            ∧ (put_api_customers_id_anyBody drv w amb req).docs = w.docs)
          ∧ (delete_api_customers_id_anyBody drv w amb req).sent
            = [⟨500, message "Failed to delete customer"⟩]
          ∧ (delete_api_customers_id_anyBody drv w amb req).docs = w.docs)
      ∧ (req.body = none →
          (put_api_customers_id_anyBody drv w amb req).sent
              = [⟨500, message "Failed to update customer"⟩]
            ∧ (put_api_customers_id_anyBody drv w amb req).docs = w.docs
            ∧ (put_api_customers_id_anyBody drv w amb req).trace
              = [.consoleError "Error updating customer:" typeErrorName]) := by
  obtain ⟨id, body⟩ := req
  cases hc : w.customersCollection with
  | none => exact absurd hc hready
  | some c =>
    refine ⟨?_, ?_, ?_⟩
    · intro o hid hno
      have hid' : drv.newObjectId (Req.mk id []).id = .ok o := hid
      have hd := deleteFirst_unmatched o w.docs hno
      refine ⟨?_, ?_, ?_⟩
      · intro hb
        cases body with
        | none => exact absurd rfl hb
        | some updateData =>
          have hidu : drv.newObjectId (Req.mk id updateData).id = .ok o := hid
          have hu := updateFirst_unmatched o (customerToUpdate updateData) w.docs hno
          have hm : (updateFirst o (customerToUpdate (Req.mk id updateData).body) w.docs).1
              = 0 := by
            show (updateFirst o (customerToUpdate updateData) w.docs).1 = 0
            rw [hu]
          rw [put_anyBody_of_object, put_branch_unmatched hc hidu hstore hm]
          exact ⟨rfl, by show (updateFirst o (customerToUpdate updateData) w.docs).2 = _
                         rw [hu]⟩
      · rw [delete_anyBody_eq drv w amb id body [],
          delete_branch_unmatched hc hid' hstore (by rw [hd])]
        rfl
      · rw [delete_anyBody_eq drv w amb id body [],
          delete_branch_unmatched hc hid' hstore (by rw [hd])]
        show (deleteFirst o w.docs).2 = w.docs
        rw [hd]
    · intro e hid
      have hid' : drv.newObjectId (Req.mk id []).id = .error e := hid
      refine ⟨?_, ?_, ?_⟩
      · intro hb
        cases body with
        | none => exact absurd rfl hb
        | some updateData =>
          have hidu : drv.newObjectId (Req.mk id updateData).id = .error e := hid
          rw [put_anyBody_of_object, put_branch_bad_id hc hidu]
          exact ⟨rfl, rfl⟩
      · rw [delete_anyBody_eq drv w amb id body [], delete_branch_bad_id hc hid']
        rfl
      · rw [delete_anyBody_eq drv w amb id body [], delete_branch_bad_id hc hid']
        rfl
    · intro hb
      have hb' : body = none := hb
      subst hb'
      rw [put_anyBody_undefined hc]
      exact ⟨rfl, rfl, rfl⟩

theorem unknown_id_answers_404_witness :
    ((put_api_customers_id_anyBody currentDriver (connectedWorld [adaStored]) calm
          ⟨"507f1f77bcf86cd799439012", some ada⟩).sent
          = [⟨404, message "Customer not found"⟩]
        ∧ (delete_api_customers_id_anyBody currentDriver (connectedWorld [adaStored]) calm
          ⟨"507f1f77bcf86cd799439012", some ada⟩).sent
          = [⟨404, message "Customer not found"⟩]
        ∧ (delete_api_customers_id_anyBody currentDriver (connectedWorld [adaStored]) calm
          ⟨"507f1f77bcf86cd799439012", some ada⟩).docs = [adaStored]
        ∧ (put_api_customers_id_anyBody currentDriver (connectedWorld [adaStored]) calm
          ⟨"507f1f77bcf86cd799439012", none⟩).sent
          = [⟨500, message "Failed to update customer"⟩]) :=
  have h := (unknown_id_answers_404 currentDriver (connectedWorld [adaStored]) calm
    ⟨"507f1f77bcf86cd799439012", some ada⟩ (by decide) rfl).1 oidB (by decide) (by decide)
  have h2 := (unknown_id_answers_404 currentDriver (connectedWorld [adaStored]) calm
    ⟨"507f1f77bcf86cd799439012", none⟩ (by decide) rfl).2.2 rfl
  ⟨(h.1 (by decide)).1, h.2.1, h.2.2, h2.1⟩

theorem updateFirst_at (o : ObjectId) (fields : Doc) (pre post : List Doc) (d : Doc)
    (hpre : ∀ x ∈ pre, docId x ≠ .oid o) (hd : docId d = .oid o) :
    updateFirst o fields (pre ++ d :: post) = (1, pre ++ applySet d fields :: post) := by
  induction pre with
  | nil => simp [updateFirst, matchesId, hd]
  | cons x xs ih =>
    have hx : matchesId o x = false := by
      simpa [matchesId] using hpre x (List.mem_cons_self x xs)
    have ih' := ih (fun y hy => hpre y (List.mem_cons_of_mem x hy))
    simp [updateFirst, hx, ih']

theorem deleteFirst_at (o : ObjectId) (pre post : List Doc) (d : Doc)
    (hpre : ∀ x ∈ pre, docId x ≠ .oid o) (hd : docId d = .oid o) :
    deleteFirst o (pre ++ d :: post) = (1, pre ++ post) := by
  induction pre with
  | nil => simp [deleteFirst, matchesId, hd]
  | cons x xs ih =>
    have hx : matchesId o x = false := by
      simpa [matchesId] using hpre x (List.mem_cons_self x xs)
    have ih' := ih (fun y hy => hpre y (List.mem_cons_of_mem x hy))
    simp [deleteFirst, hx, ih']

/-- A document with a given `_id` splits a collection with unique ids into the
documents before it and those after it, none of which has that `_id`. -/
theorem split_at_id (docs : List Doc) (d : Doc) (v : JVal)
    (huniq : uniqueIds docs) (hd : d ∈ docs) (hid : docId d = v) :
    ∃ pre post, docs = pre ++ d :: post
      ∧ (∀ x ∈ pre, docId x ≠ v) ∧ (∀ x ∈ post, docId x ≠ v) := by
  obtain ⟨pre, post, hsplit⟩ := List.append_of_mem hd
  refine ⟨pre, post, hsplit, ?_, ?_⟩
  · intro x hx hxv
    unfold uniqueIds at huniq
    rw [hsplit, List.map_append, List.map_cons] at huniq
    have hdisj := (List.nodup_append.1 huniq).2.2
    exact hdisj (List.mem_map_of_mem docId hx)
      (by rw [hxv, ← hid]; exact List.mem_cons_self _ _)
  · intro x hx hxv
    unfold uniqueIds at huniq
    rw [hsplit, List.map_append, List.map_cons] at huniq
    have hnd := (List.nodup_append.1 huniq).2.1
    have hnot := (List.nodup_cons.1 hnd).1
    exact hnot (by rw [hid, ← hxv]; exact List.mem_map_of_mem docId hx)

theorem updateFirst_count_of_mem (o : ObjectId) (fields : Doc) (docs : List Doc)
    (h : ∃ d ∈ docs, docId d = .oid o) : (updateFirst o fields docs).1 = 1 := by
  induction docs with
  | nil => obtain ⟨d, hd, _⟩ := h; cases hd
  | cons x xs ih =>
    by_cases hx : matchesId o x = true
    · simp [updateFirst, hx]
    · have hx' : matchesId o x = false := by simpa using hx
      have hne : docId x ≠ .oid o := by simpa [matchesId] using hx'
      obtain ⟨d, hd, hdid⟩ := h
      have hmem : d ∈ xs := by
        rcases List.mem_cons.1 hd with e | e
        · subst e; exact absurd hdid hne
        · exact e
      simp [updateFirst, hx', ih ⟨d, hmem, hdid⟩]

/-- C5 (counterexample). An Update request whose id matches the stored
customer and whose body carries only `name` is answered 200 with an object
whose `email` and `phone` are `undefined`; the JSON sent has two fields, `_id`
and `name`, not four. -/
theorem partial_update_response_fields :
    (∃ d ∈ (connectedWorld [adaStored]).docs, docId d = .oid oidA)
      ∧ currentDriver.newObjectId "507f1f77bcf86cd799439011" = .ok oidA
      ∧ (put_api_customers_id currentDriver (connectedWorld [adaStored]) calm
          ⟨"507f1f77bcf86cd799439011", [("name", .str "Ada L.")]⟩).sent
        = [⟨200, .obj [("_id", .str "507f1f77bcf86cd799439011"), ("name", .str "Ada L."),
            ("email", .undefined), ("phone", .undefined)]⟩]
      ∧ jsonFields [("_id", .str "507f1f77bcf86cd799439011"), ("name", .str "Ada L."),
            ("email", .undefined), ("phone", .undefined)]
        = [("_id", .str "507f1f77bcf86cd799439011"), ("name", .str "Ada L.")] := by
  refine ⟨⟨adaStored, by decide, by decide⟩, by decide, by decide, by decide⟩

/-- C5 (amended). For every Update request whose id matches a document, with
the handle initialised and a store call that does not reject, the response is
200 with the object made of `_id`, the path parameter verbatim, and `name`,
`email`, `phone` read from the request body.  The JSON sent has the field
`_id` and, of `name`, `email` and `phone`, those the request body carries, with
the request's values; a field the request body lacks is left out, so the body
has exactly the four fields when the request carries all three.  The response
is built from the request alone: two such runs with the same path id and the
same `name`, `email`, `phone` send the same response, whatever the drivers,
the stored documents and the other properties of the request bodies. -/
theorem update_response_from_request (drv : Driver) (w : World) (amb : Ambient)
    (req : Req) (o : ObjectId) (drv2 : Driver) (w2 : World) (amb2 : Ambient)
    (req2 : Req) (o2 : ObjectId)
    (hready : w.customersCollection ≠ none) (hstore : amb.fault = none)
    (hid : drv.newObjectId req.id = .ok o) (hmatch : ∃ d ∈ w.docs, docId d = .oid o)
    (hready2 : w2.customersCollection ≠ none) (hstore2 : amb2.fault = none)
    (hid2 : drv2.newObjectId req2.id = .ok o2)
    (hmatch2 : ∃ d ∈ w2.docs, docId d = .oid o2) :
    (put_api_customers_id drv w amb req).sent
        = [⟨200, .obj [("_id", .str req.id), ("name", getProp req.body "name"),
            ("email", getProp req.body "email"), ("phone", getProp req.body "phone")]⟩]
      ∧ (∀ k v, (k, v) ∈ jsonFields [("_id", .str req.id),
            ("name", getProp req.body "name"), ("email", getProp req.body "email"),
            ("phone", getProp req.body "phone")]
          ↔ (k = "_id" ∧ v = .str req.id)
            ∨ ((k = "name" ∨ k = "email" ∨ k = "phone")
                ∧ v = getProp req.body k ∧ v ≠ .undefined))
      ∧ (getProp req.body "name" ≠ .undefined → getProp req.body "email" ≠ .undefined →
          getProp req.body "phone" ≠ .undefined →
          jsonFields [("_id", .str req.id), ("name", getProp req.body "name"),
              ("email", getProp req.body "email"), ("phone", getProp req.body "phone")]
            = [("_id", .str req.id), ("name", getProp req.body "name"),
              ("email", getProp req.body "email"), ("phone", getProp req.body "phone")])
      ∧ (req2.id = req.id → getProp req2.body "name" = getProp req.body "name" →
          getProp req2.body "email" = getProp req.body "email" →
          getProp req2.body "phone" = getProp req.body "phone" →
          (put_api_customers_id drv2 w2 amb2 req2).sent
            = (put_api_customers_id drv w amb req).sent) := by
  cases hc : w.customersCollection with
  | none => exact absurd hc hready
  | some c =>
    cases hc2 : w2.customersCollection with
    | none => exact absurd hc2 hready2
    | some c2 =>
      have hm : (updateFirst o (customerToUpdate req.body) w.docs).1 ≠ 0 := by
        rw [updateFirst_count_of_mem o _ w.docs hmatch]; decide
      have hm2 : (updateFirst o2 (customerToUpdate req2.body) w2.docs).1 ≠ 0 := by
        rw [updateFirst_count_of_mem o2 _ w2.docs hmatch2]; decide
      rw [put_branch_matched hc hid hstore hm, put_branch_matched hc2 hid2 hstore2 hm2]
      refine ⟨rfl, ?_, ?_, ?_⟩
      · intro k v
        simp only [jsonFields, List.mem_filter, List.mem_cons, Prod.mk.injEq,
          List.mem_singleton, decide_eq_true_eq, List.not_mem_nil, or_false]
        constructor
        · rintro ⟨h | h | h | h, hv⟩
          · exact Or.inl h
          · exact Or.inr ⟨Or.inl h.1, by rw [h.1]; exact h.2, hv⟩
          · exact Or.inr ⟨Or.inr (Or.inl h.1), by rw [h.1]; exact h.2, hv⟩
          · exact Or.inr ⟨Or.inr (Or.inr h.1), by rw [h.1]; exact h.2, hv⟩
        · rintro (⟨hk, hv⟩ | ⟨hk | hk | hk, hv, hne⟩)
          · exact ⟨Or.inl ⟨hk, hv⟩, by rw [hv]; simp⟩
          · exact ⟨Or.inr (Or.inl ⟨hk, by rw [hv, hk]⟩), hne⟩
          · exact ⟨Or.inr (Or.inr (Or.inl ⟨hk, by rw [hv, hk]⟩)), hne⟩
          · exact ⟨Or.inr (Or.inr (Or.inr ⟨hk, by rw [hv, hk]⟩)), hne⟩
      · intro hn he hp
        simp [jsonFields, hn, he, hp]
      · intro e1 e2 e3 e4
        simp [customerToUpdate, e1, e2, e3, e4]

theorem update_response_from_request_witness :
    (put_api_customers_id currentDriver (connectedWorld [adaStored]) calm
        ⟨"507f1f77bcf86cd799439011",
          [("name", .str "Ada L."), ("email", .str "a@x.com"), ("phone", .str "555")]⟩).sent
      = [⟨200, .obj [("_id", .str "507f1f77bcf86cd799439011"), ("name", .str "Ada L."),
          ("email", .str "a@x.com"), ("phone", .str "555")]⟩]
    ∧ (put_api_customers_id driverWithOps (connectedWorld [bobStored, adaStored]) calm
        ⟨"507f1f77bcf86cd799439011",
          [("phone", .str "555"), ("name", .str "Ada L."), ("email", .str "a@x.com"),
           ("vip", .bool true)]⟩).sent
      = (put_api_customers_id currentDriver (connectedWorld [adaStored]) calm
        ⟨"507f1f77bcf86cd799439011",
          [("name", .str "Ada L."), ("email", .str "a@x.com"), ("phone", .str "555")]⟩).sent :=
  have h := update_response_from_request
    currentDriver (connectedWorld [adaStored]) calm
    ⟨"507f1f77bcf86cd799439011",
      [("name", .str "Ada L."), ("email", .str "a@x.com"), ("phone", .str "555")]⟩ oidA
    driverWithOps (connectedWorld [bobStored, adaStored]) calm
    ⟨"507f1f77bcf86cd799439011",
      [("phone", .str "555"), ("name", .str "Ada L."), ("email", .str "a@x.com"),
       ("vip", .bool true)]⟩ oidA
    (by decide) rfl (by decide) ⟨adaStored, by decide, by decide⟩
    (by decide) rfl (by decide) ⟨adaStored, by decide, by decide⟩
  ⟨h.1, h.2.2.2 rfl (by decide) (by decide) (by decide)⟩

theorem applySet_customerToUpdate (d B : Doc) :
    applySet d (customerToUpdate B)
      = setProp (setProp (setProp d "name" (bsonValue (getProp B "name")))
          "email" (bsonValue (getProp B "email"))) "phone" (bsonValue (getProp B "phone")) :=
  rfl

/-- The update leaves every property other than `name`, `email`, `phone`. -/
theorem applySet_frame (d B : Doc) (k : String)
    (h1 : k ≠ "name") (h2 : k ≠ "email") (h3 : k ≠ "phone") :
    getProp (applySet d (customerToUpdate B)) k = getProp d k
      ∧ hasProp (applySet d (customerToUpdate B)) k = hasProp d k := by
  rw [applySet_customerToUpdate]
  constructor
  · rw [getProp_setProp_other _ _ _ _ h3, getProp_setProp_other _ _ _ _ h2,
      getProp_setProp_other _ _ _ _ h1]
  · rw [hasProp_setProp_other _ _ _ _ h3, hasProp_setProp_other _ _ _ _ h2,
      hasProp_setProp_other _ _ _ _ h1]

/-- The update writes `name`, `email`, `phone` as the store serialises them. -/
theorem applySet_written (d B : Doc) :
    getProp (applySet d (customerToUpdate B)) "name" = bsonValue (getProp B "name")
      ∧ getProp (applySet d (customerToUpdate B)) "email" = bsonValue (getProp B "email")
      ∧ getProp (applySet d (customerToUpdate B)) "phone" = bsonValue (getProp B "phone") := by
  rw [applySet_customerToUpdate]
  refine ⟨?_, ?_, ?_⟩
  · rw [getProp_setProp_other _ _ _ _ (by decide), getProp_setProp_other _ _ _ _ (by decide),
      getProp_setProp_same]
  · rw [getProp_setProp_other _ _ _ _ (by decide), getProp_setProp_same]
  · rw [getProp_setProp_same]

theorem bsonValue_of_defined (v : JVal) (h : v ≠ .undefined) : bsonValue v = v := by
  cases v <;> first | rfl | exact absurd rfl h

/-- C4. For every document `d` of a collection with unique ids and every
request body `B`, an Update call on the id of `d`, with the handle
initialised and a store call that does not reject, succeeds with 200 and
makes one store call, `updateOne` with the `$set` document of exactly `name`,
`email`, `phone` valued `B.name`, `B.email`, `B.phone` (nothing else of `B`
reaches the store).  Afterwards the collection is the former one with `d`
replaced in place by the updated document: every other document is as it was;
in the updated document every property other than `name`, `email`, `phone`
(so `_id` and `createdAt`) is present or absent and valued as in `d`, and
`name`, `email`, `phone` hold the values of `B` as the store writes them (the
value itself, `null` for a property `B` lacks).  A following List call answers
200 with that collection, so it shows the new values under that id. -/
theorem update_touches_three_fields (drv : Driver) (w : World) (amb : Ambient)
    (req : Req) (o : ObjectId) (d : Doc)
    (hready : w.customersCollection ≠ none) (hstore : amb.fault = none)
    (hid : drv.newObjectId req.id = .ok o) (huniq : uniqueIds w.docs)
    (hd : d ∈ w.docs) (hdid : docId d = .oid o) :
    (put_api_customers_id drv w amb req).sent
        = [⟨200, .obj (("_id", .str req.id) :: customerToUpdate req.body)⟩]
      ∧ (put_api_customers_id drv w amb req).trace
        = [.newObjectId req.id,
           .updateOne o [("name", getProp req.body "name"),
             ("email", getProp req.body "email"), ("phone", getProp req.body "phone")]]
      ∧ (∃ pre post d', w.docs = pre ++ d :: post
          ∧ (put_api_customers_id drv w amb req).docs = pre ++ d' :: post
          ∧ (∀ k, k ≠ "name" → k ≠ "email" → k ≠ "phone" →
              getProp d' k = getProp d k ∧ hasProp d' k = hasProp d k)
          ∧ docId d' = .oid o
          ∧ getProp d' "createdAt" = getProp d "createdAt"
          ∧ getProp d' "name" = bsonValue (getProp req.body "name")
          ∧ getProp d' "email" = bsonValue (getProp req.body "email")
          ∧ getProp d' "phone" = bsonValue (getProp req.body "phone")
          ∧ (∀ k, (k = "name" ∨ k = "email" ∨ k = "phone") →
              getProp req.body k ≠ .undefined → getProp d' k = getProp req.body k)
          ∧ (∀ amb2 req2, amb2.fault = none →
              (get_api_customers ⟨w.customersCollection,
                  (put_api_customers_id drv w amb req).docs⟩ amb2 req2).sent
                = [⟨200, .arr (pre.map JVal.obj ++ JVal.obj d' :: post.map JVal.obj)⟩])) := by
  cases hc : w.customersCollection with
  | none => exact absurd hc hready
  | some c =>
    obtain ⟨pre, post, hsplit, hpre, _⟩ := split_at_id w.docs d (.oid o) huniq hd hdid
    have hupd : updateFirst o (customerToUpdate req.body) w.docs
        = (1, pre ++ applySet d (customerToUpdate req.body) :: post) := by
      rw [hsplit]; exact updateFirst_at o _ pre post d hpre hdid
    have hm : (updateFirst o (customerToUpdate req.body) w.docs).1 ≠ 0 := by
      rw [hupd]; exact Nat.one_ne_zero
    rw [put_branch_matched hc hid hstore hm, hupd]
    refine ⟨rfl, rfl, pre, post, applySet d (customerToUpdate req.body), hsplit, rfl,
      fun k h1 h2 h3 => applySet_frame d req.body k h1 h2 h3, ?_, ?_,
      (applySet_written d req.body).1, (applySet_written d req.body).2.1,
      (applySet_written d req.body).2.2, ?_, ?_⟩
    · unfold docId
      rw [(applySet_frame d req.body "_id" (by decide) (by decide) (by decide)).1]
      exact hdid
    · exact (applySet_frame d req.body "createdAt" (by decide) (by decide) (by decide)).1
    · intro k hk hne
      rcases hk with hk | hk | hk <;> subst hk
      · rw [(applySet_written d req.body).1, bsonValue_of_defined _ hne]
      · rw [(applySet_written d req.body).2.1, bsonValue_of_defined _ hne]
      · rw [(applySet_written d req.body).2.2, bsonValue_of_defined _ hne]
    · intro amb2 req2 hf2
      have hc2 : (⟨some c, pre ++ applySet d (customerToUpdate req.body) :: post⟩
          : World).customersCollection = some c := rfl
      rw [get_branch_ok hc2 hf2]
      simp

theorem update_touches_three_fields_witness :
    (put_api_customers_id currentDriver (connectedWorld [adaStored, bobStored]) calm
        ⟨"507f1f77bcf86cd799439012",
          [("name", .str "Bob B."), ("email", .str "b@x.com"), ("phone", .str "777"),
           ("vip", .bool false), ("_id", .str "other")]⟩).trace
      = [.newObjectId "507f1f77bcf86cd799439012",
         .updateOne oidB [("name", .str "Bob B."), ("email", .str "b@x.com"),
           ("phone", .str "777")]]
    ∧ ∃ pre post d', [adaStored, bobStored] = pre ++ bobStored :: post
      ∧ (put_api_customers_id currentDriver (connectedWorld [adaStored, bobStored]) calm
        ⟨"507f1f77bcf86cd799439012",
          [("name", .str "Bob B."), ("email", .str "b@x.com"), ("phone", .str "777"),
           ("vip", .bool false), ("_id", .str "other")]⟩).docs = pre ++ d' :: post
      ∧ getProp d' "vip" = .bool true
      ∧ getProp d' "name" = .str "Bob B." := by
  obtain ⟨_, h2, pre, post, d', h3, h4, h5, _, _, h8, _⟩ :=
    update_touches_three_fields currentDriver (connectedWorld [adaStored, bobStored]) calm
      ⟨"507f1f77bcf86cd799439012",
        [("name", .str "Bob B."), ("email", .str "b@x.com"), ("phone", .str "777"),
         ("vip", .bool false), ("_id", .str "other")]⟩ oidB bobStored
      (by decide) rfl (by decide) (by decide) (by decide) (by decide)
  exact ⟨h2, pre, post, d', h3, h4,
    (h5 "vip" (by decide) (by decide) (by decide)).1.trans (by decide), h8.trans (by decide)⟩

/-- C6 (counterexample). A customer created through the Create handler with
an `_id` of its own, the string "abc", is stored under that `_id`; the first
Delete call on that id is answered 500, not 200, and removes nothing: the
handler turns every path id into an `ObjectId`, and the constructor rejects
"abc". -/
theorem delete_of_client_id_answers_500 :
    (post_api_customers driverWithOps (connectedWorld []) calm
        ⟨"", [("_id", .str "abc"), ("name", .str "Ada")]⟩).sent
      = [⟨201, .obj [("_id", .str "abc"), ("name", .str "Ada"), ("createdAt", .date 1000)]⟩]
    ∧ (post_api_customers driverWithOps (connectedWorld []) calm
        ⟨"", [("_id", .str "abc"), ("name", .str "Ada")]⟩).docs
      = [[("_id", .str "abc"), ("name", .str "Ada"), ("createdAt", .date 1000)]]
    ∧ (delete_api_customers_id driverWithOps
        (connectedWorld [[("_id", .str "abc"), ("name", .str "Ada"),
          ("createdAt", .date 1000)]]) calm ⟨"abc", []⟩).sent
      = [⟨500, message "Failed to delete customer"⟩]
    ∧ (delete_api_customers_id driverWithOps
        (connectedWorld [[("_id", .str "abc"), ("name", .str "Ada"),
          ("createdAt", .date 1000)]]) calm ⟨"abc", []⟩).docs
      = [[("_id", .str "abc"), ("name", .str "Ada"), ("createdAt", .date 1000)]] := by
  decide

/-- C6 (amended). For every document `d` of a collection with unique ids whose
`_id` is an `ObjectId`, as every id the store assigns is, with the handle
initialised and store calls that do not reject: a first Delete call whose path
id denotes that `ObjectId` answers 200 with the message "Customer deleted
successfully" and removes exactly `d`, every other document staying in place
as it was; a second Delete call on the same id, with nothing created in
between, answers 404 with the message "Customer not found" and leaves the
collection as it was. -/
theorem delete_then_delete_again (drv : Driver) (w : World) (amb amb2 : Ambient)
    (req req2 : Req) (o : ObjectId) (d : Doc)
    (hready : w.customersCollection ≠ none)
    (hstore : amb.fault = none) (hstore2 : amb2.fault = none)
    (hid : drv.newObjectId req.id = .ok o) (hsame : req2.id = req.id)
    (huniq : uniqueIds w.docs) (hd : d ∈ w.docs) (hdid : docId d = .oid o) :
    (delete_api_customers_id drv w amb req).sent
        = [⟨200, message "Customer deleted successfully"⟩]
      ∧ (∃ pre post, w.docs = pre ++ d :: post
          ∧ (delete_api_customers_id drv w amb req).docs = pre ++ post)
      ∧ (delete_api_customers_id drv
            ⟨w.customersCollection, (delete_api_customers_id drv w amb req).docs⟩
            amb2 req2).sent = [⟨404, message "Customer not found"⟩]
      ∧ (delete_api_customers_id drv
            ⟨w.customersCollection, (delete_api_customers_id drv w amb req).docs⟩
            amb2 req2).docs = (delete_api_customers_id drv w amb req).docs := by
  cases hc : w.customersCollection with
  | none => exact absurd hc hready
  | some c =>
    obtain ⟨pre, post, hsplit, hpre, hpost⟩ := split_at_id w.docs d (.oid o) huniq hd hdid
    have hdel : deleteFirst o w.docs = (1, pre ++ post) := by
      rw [hsplit]; exact deleteFirst_at o pre post d hpre hdid
    have hm : (deleteFirst o w.docs).1 ≠ 0 := by
      rw [hdel]; exact Nat.one_ne_zero
    have hgone : ∀ x ∈ pre ++ post, docId x ≠ .oid o := by
      intro x hx
      rcases List.mem_append.1 hx with h | h
      · exact hpre x h
      · exact hpost x h
    have hdel2 : deleteFirst o (pre ++ post) = (0, pre ++ post) :=
      deleteFirst_unmatched o (pre ++ post) hgone
    rw [delete_branch_matched hc hid hstore hm, hdel]
    have hc2 : (⟨some c, pre ++ post⟩ : World).customersCollection = some c := rfl
    have hid2 : drv.newObjectId req2.id = .ok o := by rw [hsame]; exact hid
    have hm2 : (deleteFirst o (⟨some c, pre ++ post⟩ : World).docs).1 = 0 := by
      show (deleteFirst o (pre ++ post)).1 = 0
      rw [hdel2]
    refine ⟨rfl, ⟨pre, post, hsplit, rfl⟩, ?_, ?_⟩
    · show (delete_api_customers_id drv ⟨some c, pre ++ post⟩ amb2 req2).sent = _
      rw [delete_branch_unmatched hc2 hid2 hstore2 hm2]
    · show (delete_api_customers_id drv ⟨some c, pre ++ post⟩ amb2 req2).docs = pre ++ post
      rw [delete_branch_unmatched hc2 hid2 hstore2 hm2]
      show (deleteFirst o (pre ++ post)).2 = pre ++ post
      rw [hdel2]

theorem delete_then_delete_again_witness :
    (delete_api_customers_id currentDriver (connectedWorld [adaStored, bobStored]) calm
        ⟨"507f1f77bcf86cd799439011", []⟩).sent
      = [⟨200, message "Customer deleted successfully"⟩]
    ∧ (delete_api_customers_id currentDriver
        ⟨(connectedWorld [adaStored, bobStored]).customersCollection,
          (delete_api_customers_id currentDriver (connectedWorld [adaStored, bobStored]) calm
            ⟨"507f1f77bcf86cd799439011", []⟩).docs⟩
        calm ⟨"507f1f77bcf86cd799439011", []⟩).sent
      = [⟨404, message "Customer not found"⟩] :=
  have h := delete_then_delete_again currentDriver (connectedWorld [adaStored, bobStored])
    calm calm ⟨"507f1f77bcf86cd799439011", []⟩ ⟨"507f1f77bcf86cd799439011", []⟩
    oidA adaStored (by decide) rfl rfl (by decide) rfl (by decide) (by decide) (by decide)
  ⟨h.1, h.2.2.1⟩

theorem getProp_of_not_hasProp (o : Doc) (k : String) (h : hasProp o k = false) :
    getProp o k = .undefined := by
  induction o with
  | nil => rfl
  | cons p rest ih =>
    obtain ⟨k', v'⟩ := p
    by_cases hk : k' = k
    · simp [hasProp, hk] at h
    · simp [hasProp, hk] at h
      simp [getProp, hk, ih h]

/-- C3. For every payload `P` without an `_id`, with the handle initialised,
store calls that do not reject and a generated id that no stored document has:
the List handler run after the Create handler on `P` answers 200 with the
array of the documents listed before followed by one new document, so exactly
one more than before and exactly one from an empty collection; the new
document has the `name`, `email` and `phone` of `P`, the id the store
assigned, and `createdAt`. -/
theorem create_then_list (drv : Driver) (w : World) (amb amb0 amb2 : Ambient)
    (req req0 req2 : Req)
    (hready : w.customersCollection ≠ none)
    (hstore : amb.fault = none) (hstore0 : amb0.fault = none) (hstore2 : amb2.fault = none)
    (hnoid : hasProp req.body "_id" = false)
    (hfresh : ∀ d ∈ w.docs, docId d ≠ .oid amb.freshId) :
    ∃ created : Doc,
      (get_api_customers w amb0 req0).sent = [⟨200, .arr (w.docs.map JVal.obj)⟩]
        ∧ (get_api_customers
            ⟨w.customersCollection, (post_api_customers drv w amb req).docs⟩ amb2 req2).sent
          = [⟨200, .arr (w.docs.map JVal.obj ++ [.obj created])⟩]
        ∧ (w.docs.map JVal.obj ++ [JVal.obj created]).length
            = (w.docs.map JVal.obj).length + 1
        ∧ (w.docs = [] →
            (get_api_customers
              ⟨w.customersCollection, (post_api_customers drv w amb req).docs⟩
              amb2 req2).sent = [⟨200, .arr [.obj created]⟩])
        ∧ getProp created "name" = getProp req.body "name"
        ∧ getProp created "email" = getProp req.body "email"
        ∧ getProp created "phone" = getProp req.body "phone"
        ∧ getProp created "_id" = .oid amb.freshId
        ∧ getProp created "createdAt" = .date amb.now := by
  cases hc : w.customersCollection with
  | none => exact absurd hc hready
  | some c =>
    have hundef : getProp (setProp req.body "createdAt" (.date amb.now)) "_id"
        = .undefined := by
      rw [getProp_setProp_other _ _ _ _ (by decide)]
      exact getProp_of_not_hasProp _ _ hnoid
    have hassign : assignId (setProp req.body "createdAt" (.date amb.now)) amb.freshId
        = setProp (setProp req.body "createdAt" (.date amb.now)) "_id"
            (.oid amb.freshId) := by
      unfold assignId
      rw [hundef]
    have hnew : docId (assignId (setProp req.body "createdAt" (.date amb.now)) amb.freshId)
        = .oid amb.freshId := by
      rw [hassign]
      exact getProp_setProp_same _ _ _
    have hins := insertOne_succeeds drv w.docs (setProp req.body "createdAt" (.date amb.now))
      amb hstore (by rw [hnew]; exact hfresh)
    have hdocs : (post_api_customers drv w amb req).docs
        = w.docs ++ [assignId (setProp req.body "createdAt" (.date amb.now)) amb.freshId] := by
      cases hops : drv.insertResultHasOps with
      | false =>
        rw [post_branch_no_ops hc hins (by simp [hops])]
      | true =>
        have hres : (InsertOneResult.mk
            (docId (assignId (setProp req.body "createdAt" (.date amb.now)) amb.freshId))
            (if drv.insertResultHasOps then
              some [JVal.obj (assignId (setProp req.body "createdAt" (.date amb.now))
                amb.freshId)]
            else none)).ops
            = some [JVal.obj (assignId (setProp req.body "createdAt" (.date amb.now))
                amb.freshId)] := by
          simp [hops]
        rw [post_branch_ops hc hins hres]
    have hc2 : (⟨some c, (post_api_customers drv w amb req).docs⟩ : World).customersCollection
        = some c := rfl
    have hlist : (get_api_customers ⟨some c, (post_api_customers drv w amb req).docs⟩
        amb2 req2).sent
        = [⟨200, .arr (w.docs.map JVal.obj
            ++ [.obj (assignId (setProp req.body "createdAt" (.date amb.now))
                  amb.freshId)])⟩] := by
      rw [get_branch_ok hc2 hstore2]
      show [(⟨200, .arr ((post_api_customers drv w amb req).docs.map JVal.obj)⟩ : Response)] = _
      rw [hdocs]
      simp
    refine ⟨assignId (setProp req.body "createdAt" (.date amb.now)) amb.freshId,
      ?_, hlist, by simp, ?_, ?_, ?_, ?_, hnew, ?_⟩
    · rw [get_branch_ok hc hstore0]
    · intro he
      rw [hlist, he]
      rfl
    · rw [getProp_assignId_other _ _ _ (by decide), getProp_setProp_other _ _ _ _ (by decide)]
    · rw [getProp_assignId_other _ _ _ (by decide), getProp_setProp_other _ _ _ _ (by decide)]
    · rw [getProp_assignId_other _ _ _ (by decide), getProp_setProp_other _ _ _ _ (by decide)]
    · rw [getProp_assignId_other _ _ _ (by decide)]
      exact getProp_setProp_same _ _ _

theorem create_then_list_witness :
    ∃ created : Doc,
      (get_api_customers
          ⟨(connectedWorld [bobStored]).customersCollection,
            (post_api_customers currentDriver (connectedWorld [bobStored]) calm
              ⟨"", ada⟩).docs⟩ calm ⟨"", []⟩).sent
        = [⟨200, .arr ([bobStored].map JVal.obj ++ [.obj created])⟩]
      ∧ getProp created "name" = .str "Ada"
      ∧ getProp created "_id" = .oid oidA
      ∧ getProp created "createdAt" = .date 1000 := by
  obtain ⟨created, _, h2, _, _, h5, _, _, h8, h9⟩ :=
    create_then_list currentDriver (connectedWorld [bobStored]) calm calm calm
      ⟨"", ada⟩ ⟨"", []⟩ ⟨"", []⟩ (by decide) rfl rfl rfl (by decide) (by decide)
  exact ⟨created, h2, h5.trans (by decide), h8, h9⟩

/-! ## The `_id` index is kept -/

theorem docId_applySet (d B : Doc) :
    docId (applySet d (customerToUpdate B)) = docId d :=
  (applySet_frame d B "_id" (by decide) (by decide) (by decide)).1

theorem updateFirst_ids (o : ObjectId) (B : Doc) (docs : List Doc) :
    (updateFirst o (customerToUpdate B) docs).2.map docId = docs.map docId := by
  induction docs with
  | nil => rfl
  | cons d ds ih =>
    by_cases hd : matchesId o d = true
    · simp [updateFirst, hd, docId_applySet]
    · have hd' : matchesId o d = false := by simpa using hd
      simp [updateFirst, hd', ih]

theorem deleteFirst_sublist (o : ObjectId) (docs : List Doc) :
    List.Sublist (deleteFirst o docs).2 docs := by
  induction docs with
  | nil => exact List.Sublist.slnil
  | cons d ds ih =>
    by_cases hd : matchesId o d = true
    · simp [deleteFirst, hd]
    · have hd' : matchesId o d = false := by simpa using hd
      simp only [deleteFirst, hd']
      exact List.Sublist.cons₂ d ih

/-- Every handler keeps the `_id` of the documents of the collection unique;
the empty collection has unique ids. -/
theorem handlers_keep_uniqueIds (drv : Driver) (w : World) (amb : Ambient) (req : Req)
    (h : uniqueIds w.docs) :
    uniqueIds ([] : List Doc)
      ∧ uniqueIds (get_api_customers w amb req).docs
      ∧ uniqueIds (post_api_customers drv w amb req).docs
      ∧ uniqueIds (put_api_customers_id drv w amb req).docs
      ∧ uniqueIds (delete_api_customers_id drv w amb req).docs := by
  refine ⟨List.nodup_nil, ?_, ?_, ?_, ?_⟩
  · unfold get_api_customers
    cases w.customersCollection with
    | none => exact h
    | some c => simp only []; split <;> exact h
  · cases hc : w.customersCollection with
    | none => simpa [post_api_customers, hc] using h
    | some c =>
      cases hins : insertOne drv w.docs (setProp req.body "createdAt" (.date amb.now)) amb with
      | error e => rw [post_branch_error hc hins]; exact h
      | ok r =>
        obtain ⟨result, docs'⟩ := r
        obtain ⟨hdocs, _, _, hnew⟩ := insertOne_ok_docs hins
        have hu : uniqueIds docs' := by
          rw [hdocs]
          unfold uniqueIds at h ⊢
          rw [List.map_append, List.map_singleton]
          refine List.nodup_append.2 ⟨h, List.nodup_singleton _, ?_⟩
          intro v hv hv'
          obtain ⟨d, hd, hdv⟩ := List.mem_map.1 hv
          rw [List.mem_singleton] at hv'
          exact hnew d hd (hdv.trans hv')
        cases hops : result.ops with
        | none => rw [post_branch_no_ops hc hins hops]; exact hu
        | some ops => rw [post_branch_ops hc hins hops]; exact hu
  · cases hc : w.customersCollection with
    | none => simpa [put_api_customers_id, hc] using h
    | some c =>
      have hu : ∀ o, uniqueIds (updateFirst o (customerToUpdate req.body) w.docs).2 := by
        intro o
        unfold uniqueIds
        rw [updateFirst_ids o req.body w.docs]
        exact h
      cases hid : drv.newObjectId req.id with
      | error e => rw [put_branch_bad_id hc hid]; exact h
      | ok o =>
        cases hf : amb.fault with
        | some e => rw [put_branch_fault hc hid hf]; exact h
        | none =>
          by_cases hm : (updateFirst o (customerToUpdate req.body) w.docs).1 = 0
          · rw [put_branch_unmatched hc hid hf hm]; exact hu o
          · rw [put_branch_matched hc hid hf hm]; exact hu o
  · cases hc : w.customersCollection with
    | none => simpa [delete_api_customers_id, hc] using h
    | some c =>
      cases hid : drv.newObjectId req.id with
      | error e => rw [delete_branch_bad_id hc hid]; exact h
      | ok o =>
        have hu : uniqueIds (deleteFirst o w.docs).2 :=
          List.Nodup.sublist ((deleteFirst_sublist o w.docs).map docId) h
        cases hf : amb.fault with
        | some e => rw [delete_branch_fault hc hid hf]; exact h
        | none =>
          by_cases hm : (deleteFirst o w.docs).1 = 0
          · rw [delete_branch_unmatched hc hid hf hm]; exact hu
          · rw [delete_branch_matched hc hid hf hm]; exact hu

end Exp8
